import Mathlib

/-!
# pge-cep-weather: postal code to current temperature

A shallow embedding of `main.go`: the postal-code validator, the two resolvers
(`getLocationData`, `getWeatherData`), the fetch-and-decode helper `request`
and the HTTP handler `weatherHandler`, with the theorems that settle the
specification's claims about them.

Go strings are modelled by `String`; where the code works on the bytes of a
string (`url.QueryEscape`) the UTF-8 bytes are taken.  Effects (outbound
requests, log lines, resolver calls) are recorded in an explicit event trace.
-/

namespace CepWeather

/-! ## Regular expressions: the fragment used by `isValidCep` -/

/-- Syntax of the regular expressions the program compiles: `^`, `$`, `\d`,
concatenation and the counted repetition `r{n}`. -/
inductive Regex where
  | beginText : Regex
  | endText : Regex
  | digit : Regex
  | cat : Regex → Regex → Regex
  | rep : Regex → Nat → Regex
  deriving Repr

/-- A position of the matcher in the input: the number of characters already
consumed and the characters still ahead. -/
structure Pos where
  consumed : Nat
  rest : List Char
  deriving DecidableEq, Repr

/-- The class `\d` of Go's `regexp` (RE2 syntax): the ASCII digits only. -/
def isDigit (c : Char) : Bool :=
  decide ('0' ≤ c) && decide (c ≤ '9')

/-- Apply a step function `n` times in sequence, collecting every way through. -/
def iterate (f : Pos → List Pos) : Nat → Pos → List Pos
  | 0, p => [p]
  | n + 1, p => (f p).flatMap (iterate f n)

/-- All positions at which a match of `r` started at `p` can end.  Without
flags, `^` matches at the beginning of the text only and `$` at the end of the
text only (not before a final newline). -/
def Regex.run : Regex → Pos → List Pos
  | .beginText, p => if p.consumed = 0 then [p] else []
  | .endText, p => if p.rest = [] then [p] else []
  | .digit, p =>
    match p.rest with
    | c :: cs => if isDigit c then [⟨p.consumed + 1, cs⟩] else []
    | [] => []
  | .cat r₁ r₂, p => (r₁.run p).flatMap r₂.run
  | .rep r n, p => iterate r.run n p

/-- Whether a match of `r` starts at some position at or after `p`. -/
def Regex.search (r : Regex) : Nat → List Char → Bool
  | k, [] => !(r.run ⟨k, []⟩).isEmpty
  | k, c :: cs => !(r.run ⟨k, c :: cs⟩).isEmpty || r.search (k + 1) cs

/-- Model of `(*Regexp).MatchString`: the string contains some match of the expression. -/
def Regex.MatchString (r : Regex) (s : String) : Bool :=
  r.search 0 s.data

/-- The expression `^\d{8}$` compiled in `isValidCep`. -/
def cepRegex : Regex :=
  .cat .beginText (.cat (.rep .digit 8) .endText)

/-- Model of `isValidCep`. -/
def isValidCep (cep : String) : Bool :=
  cepRegex.MatchString cep

/-! ## float64

The temperature fields are `float64`.  A value is modelled by the rational it
denotes (the two zeros are not told apart), or an infinity, or NaN; arithmetic
rounds the exact result to the binary64 grid, to nearest, ties to even. -/

/-- A `float64` value: a finite one given by the rational it denotes, `±Inf`, or NaN. -/
inductive F64 where
  | finite (q : ℚ)
  | inf (negative : Bool)
  | nan
  deriving DecidableEq, Repr

/-- Nearest integer to `t`, a tie going to the even neighbour. -/
def roundHalfEven (t : ℚ) : ℤ :=
  let f := ⌊t⌋
  if t - f < 1/2 then f
  else if 1/2 < t - f then f + 1
  else if f % 2 = 0 then f else f + 1

/-- Exponent of the binade of `x`: `⌊log₂ |x|⌋`, not below the least normal exponent. -/
def binade (x : ℚ) : ℤ := max (Int.log 2 |x|) (-1022)

/-- Rounding of an exact result to binary64: 53 significant bits in the binade
of `x`, overflow to an infinity from `2^1024` on. -/
def round64 (x : ℚ) : F64 :=
  if x = 0 then .finite 0 else
  let ulp : ℚ := 2 ^ (binade x - 52)
  let y := roundHalfEven (x / ulp) * ulp
  if 2 ^ 1024 ≤ |y| then .inf (decide (x < 0)) else .finite y

/-- The `float64` sum `a + b`. -/
def F64.add : F64 → F64 → F64
  | .finite a, .finite b => round64 (a + b)
  | .finite _, .inf t => .inf t
  | .inf s, .finite _ => .inf s
  | .inf s, .inf t => if s = t then .inf s else .nan
  | _, _ => .nan

/-- The `float64` difference `a - b`. -/
def F64.sub : F64 → F64 → F64
  | .finite a, .finite b => round64 (a - b)
  | .finite _, .inf t => .inf (!t)
  | .inf s, .finite _ => .inf s
  | .inf s, .inf t => if s = t then .nan else .inf s
  | _, _ => .nan

/-- The comparison `a == b` on `float64`: NaN equals nothing. -/
def F64.eq : F64 → F64 → Bool
  | .finite a, .finite b => decide (a = b)
  | .inf s, .inf t => s == t
  | _, _ => false

/-! ## Strings as bytes and `url.QueryEscape` -/

/-- The UTF-8 bytes of a character. -/
def utf8EncodeChar (c : Char) : List Nat :=
  let v := c.toNat
  if v ≤ 0x7f then [v]
  else if v ≤ 0x7ff then [0xc0 + v / 64, 0x80 + v % 64]
  else if v ≤ 0xffff then [0xe0 + v / 4096, 0x80 + v / 64 % 64, 0x80 + v % 64]
  else [0xf0 + v / 262144, 0x80 + v / 4096 % 64, 0x80 + v / 64 % 64, 0x80 + v % 64]

/-- The bytes of a Go string: the UTF-8 encoding of its text. -/
def bytes (s : String) : List Nat := s.data.flatMap utf8EncodeChar

/-- The string made of the given ASCII bytes. -/
def fromBytes (bs : List Nat) : String := ⟨bs.map Char.ofNat⟩

/-- Model of `shouldEscape(c, encodeQueryComponent)` of `net/url`: everything
is escaped but the unreserved characters (letters, digits, `-`, `_`, `.`, `~`). -/
def shouldEscape (c : Nat) : Bool :=
  if ('a'.toNat ≤ c && c ≤ 'z'.toNat) || ('A'.toNat ≤ c && c ≤ 'Z'.toNat) ||
      ('0'.toNat ≤ c && c ≤ '9'.toNat) then false
  else if c = '-'.toNat || c = '_'.toNat || c = '.'.toNat || c = '~'.toNat then false
  else true

/-- The table `upperhex` of `net/url`. -/
def upperhex : List Nat := bytes "0123456789ABCDEF"

/-- What `escape` writes for one byte in query-component mode: `+` for a space,
`%XX` for a byte to escape, the byte itself otherwise. -/
def escapeByte (c : Nat) : List Nat :=
  if c = ' '.toNat then ['+'.toNat]
  else if shouldEscape c then ['%'.toNat, upperhex.getD (c >>> 4) 0, upperhex.getD (c &&& 15) 0]
  else [c]

/-- Model of `escape(s, encodeQueryComponent)` of `net/url`, byte by byte. -/
def escape (s : List Nat) : List Nat := s.flatMap escapeByte

/-- Model of `url.QueryEscape`. -/
def QueryEscape (s : String) : String := fromBytes (escape (bytes s))

/-- Model of `ishex` of `net/url`. -/
def ishex (c : Nat) : Bool :=
  ('0'.toNat ≤ c && c ≤ '9'.toNat) || ('a'.toNat ≤ c && c ≤ 'f'.toNat) ||
    ('A'.toNat ≤ c && c ≤ 'F'.toNat)

/-- Model of `unhex` of `net/url`. -/
def unhex (c : Nat) : Nat :=
  if '0'.toNat ≤ c && c ≤ '9'.toNat then c - '0'.toNat
  else if 'a'.toNat ≤ c && c ≤ 'f'.toNat then c - 'a'.toNat + 10
  else if 'A'.toNat ≤ c && c ≤ 'F'.toNat then c - 'A'.toNat + 10
  else 0

/-- Model of `unescape(s, encodeQueryComponent)` of `net/url`: `%XX` gives the
byte `XX`, `+` a space, a `%` not followed by two hex digits is an error. -/
def unescape : List Nat → Except String (List Nat)
  | [] => .ok []
  | c :: rest =>
    if c = '%'.toNat then
      match rest with
      | a :: b :: rest' =>
        if ishex a && ishex b then
          (unescape rest').map (((unhex a <<< 4) % 256 ||| unhex b) :: ·)
        else .error "invalid URL escape"
      | _ => .error "invalid URL escape"
    else if c = '+'.toNat then (unescape rest).map (' '.toNat :: ·)
    else (unescape rest).map (c :: ·)

/-- Model of `url.QueryUnescape`, giving the bytes of the decoded string. -/
def QueryUnescape (s : String) : Except String (List Nat) := unescape (bytes s)

/-! ## Data model -/

/-- The type `config`. -/
structure config where
  port : String
  weatherApiKey : String
  deriving DecidableEq, Repr

/-- The type `cepInfo`. -/
structure cepInfo where
  Cep : String
  State : String
  City : String
  Neighborhood : String
  Street : String
  deriving DecidableEq, Repr

/-- The record `respData` that `getLocationData` decodes the lookup response into. -/
structure getLocationData.respData where
  Cep : String
  Logradouro : String
  Complemento : String
  Unidade : String
  Bairro : String
  Localidade : String
  Uf : String
  Ibge : String
  Gia : String
  Ddd : String
  Siafi : String
  Err : Bool
  deriving DecidableEq, Repr

/-- The type `WeatherInfo`. -/
structure WeatherInfo where
  Kelvin : F64
  Celsius : F64
  Fahrenheit : F64
  deriving DecidableEq, Repr

/-- The record `respData` that `getWeatherData` decodes the weather response
into: the fields `temp_c` and `temp_f` of its `current` object. -/
structure getWeatherData.respData where
  TempC : F64
  TempF : F64
  deriving DecidableEq, Repr

/-- The keys and values of the JSON object a `WeatherInfo` encodes to, from its field tags. -/
def WeatherInfo.json (wi : WeatherInfo) : List (String × F64) :=
  [("temp_K", wi.Kelvin), ("temp_C", wi.Celsius), ("temp_F", wi.Fahrenheit)]

/-! ## The outside world -/

/-- A `context.Context`: the background context, the context of an inbound
request, or a context derived from a parent. -/
inductive Ctx where
  | background : Ctx
  | inbound (id : Nat) : Ctx
  | withTimeout (parent : Ctx) (seconds : Nat) : Ctx
  | withValue (parent : Ctx) (key : String) : Ctx
  deriving DecidableEq, Repr

/-- Whether a context is `root` or was derived from it, so that cancelling
`root` or reaching its deadline cancels it. -/
def Ctx.derivedFrom (root : Ctx) : Ctx → Bool
  | .background => decide (root = .background)
  | .inbound id => decide (root = .inbound id)
  | .withTimeout parent s =>
    decide (root = .withTimeout parent s) || Ctx.derivedFrom root parent
  | .withValue parent k =>
    decide (root = .withValue parent k) || Ctx.derivedFrom root parent

/-- What happens to a GET of some URL, through `http.NewRequestWithContext`,
`http.DefaultClient.Do` and `io.ReadAll`: one of the three fails, or a response
with some status code and body arrives. -/
inductive RoundTrip where
  | createFailed (err : String)
  | doFailed (err : String)
  | readFailed (status : Nat) (err : String)
  | response (status : Nat) (body : String)
  deriving DecidableEq, Repr

/-- Everything outside the program: the configuration read at start-up, what
each URL answers, and `json.Unmarshal` at the two record types (whether a body
decodes, and to which record). -/
structure World where
  conf : config
  roundTrip : String → RoundTrip
  unmarshalLocation : String → Except String getLocationData.respData
  unmarshalWeather : String → Except String getWeatherData.respData

/-- An observable effect. -/
inductive Event where
  | log (line : String)
  | call (fn : String) (arg : String)
  | outbound (ctx : Ctx) (url : String)
  deriving DecidableEq, Repr

/-- Whether an event is a request sent to an outbound dependency. -/
def Event.isOutbound : Event → Bool
  | .outbound _ _ => true
  | _ => false

/-- Whether an event is a call of the named resolver. -/
def Event.isCallOf (fn : String) : Event → Bool
  | .call f _ => f == fn
  | _ => false

/-! ## The program -/

/-- Model of `request`: fetch the URL and decode the body.  The status code of
the response is not looked at. -/
def request {α : Type} (w : World) (unmarshal : String → Except String α)
    (ctx : Ctx) (url : String) : Except String α × List Event :=
  match w.roundTrip url with
  | .createFailed err => (.error ("error to create request: " ++ err), [])
  | .doFailed err => (.error ("error to do request: " ++ err), [.outbound ctx url])
  | .readFailed _ err => (.error ("error to read body: " ++ err), [.outbound ctx url])
  | .response _ body =>
    match unmarshal body with
    | .error err => (.error ("error to unmarshal body: " ++ err), [.outbound ctx url])
    | .ok data => (.ok data, [.outbound ctx url])

/-- Model of `getLocationData`; `none` is the nil result. -/
def getLocationData (w : World) (cep : String) : Except String (Option cepInfo) × List Event :=
  match request w w.unmarshalLocation Ctx.background
      ("http://viacep.com.br/ws/" ++ cep ++ "/json/") with
  | (.error err, ev) =>
    (.error ("error requesting via cep: " ++ err), .call "getLocationData" cep :: ev)
  | (.ok data, ev) =>
    if data.Err then (.ok none, .call "getLocationData" cep :: ev)
    else
      (.ok (some
          { Cep := data.Cep
            State := data.Uf
            City := data.Localidade
            Neighborhood := data.Bairro
            Street := data.Logradouro }),
        .call "getLocationData" cep :: ev)

/-- Model of `getWeatherData`. -/
def getWeatherData (w : World) (location : String) : Except String WeatherInfo × List Event :=
  let url := "https://api.weatherapi.com/v1/current.json?key=" ++ w.conf.weatherApiKey ++
    "&q=" ++ QueryEscape location ++ "&aqi=no"
  match request w w.unmarshalWeather Ctx.background url with
  | (.error err, ev) =>
    (.error ("error requesting weather api: " ++ err), .call "getWeatherData" location :: ev)
  | (.ok data, ev) =>
    (.ok
        { Celsius := data.TempC
          Fahrenheit := data.TempF
          Kelvin := data.TempC.add (.finite 273) },
      .call "getWeatherData" location :: ev)

/-- The body of a response: plain text, a JSON object given by its keys and
values, or an XML element given by its name and its child elements. -/
inductive Body where
  | text (s : String)
  | json (fields : List (String × F64))
  | xml (root : String) (children : List (String × F64))
  deriving DecidableEq, Repr

/-- What the handler writes to the `http.ResponseWriter`. -/
structure Response where
  status : Nat
  body : Body
  deriving DecidableEq, Repr

/-- The constant `http.StatusNotFound`. -/
def StatusNotFound : Nat := 404
/-- The constant `http.StatusUnprocessableEntity`. -/
def StatusUnprocessableEntity : Nat := 422
/-- The constant `http.StatusInternalServerError`. -/
def StatusInternalServerError : Nat := 500

/-- Model of `http.StatusText`, for the codes the program uses. -/
def StatusText (code : Nat) : String :=
  if code = 200 then "OK"
  else if code = 404 then "Not Found"
  else if code = 405 then "Method Not Allowed"
  else if code = 422 then "Unprocessable Entity"
  else if code = 500 then "Internal Server Error"
  else if code = 504 then "Gateway Timeout"
  else ""

/-- Model of `http.Error`: a plain-text response with the given code, the
message followed by a newline. -/
def httpError (error : String) (code : Nat) : Response :=
  { status := code, body := .text (error ++ "\n") }

/-- An inbound request: its context, its `cep` URL parameter and the value of
its `Accept` header, empty when the header is absent. -/
structure Request where
  ctx : Ctx
  cep : String
  accept : String
  deriving DecidableEq, Repr

/-- The type `ContentType` of `go-chi/render`. -/
inductive ContentType where
  | unknown
  | plainText
  | html
  | json
  | xml
  | form
  | eventStream
  deriving DecidableEq, Repr

/-- Model of `unicode.IsSpace`. -/
def isSpace (c : Char) : Bool :=
  c = '\t' || c = '\n' || c.toNat = 0x0B || c.toNat = 0x0C || c = '\r' || c = ' ' ||
    c.toNat = 0x85 || c.toNat = 0xA0 || c.toNat = 0x1680 ||
    (0x2000 ≤ c.toNat && c.toNat ≤ 0x200A) || c.toNat = 0x2028 || c.toNat = 0x2029 ||
    c.toNat = 0x202F || c.toNat = 0x205F || c.toNat = 0x3000

/-- Model of `strings.TrimSpace`. -/
def TrimSpace (s : String) : String :=
  ⟨((s.data.dropWhile isSpace).reverse.dropWhile isSpace).reverse⟩

/-- The first element of `strings.Split(s, sep)` for a one-character separator:
the text before the first separator, or all of `s` when it has none. -/
def firstField (sep : Char) (s : String) : String :=
  ⟨s.data.takeWhile (· != sep)⟩

/-- Model of `render.GetContentType`: the media type before any `;` parameter. -/
def GetContentType (s : String) : ContentType :=
  let t := TrimSpace (firstField ';' s)
  if t = "text/plain" then .plainText
  else if t = "text/html" || t = "application/xhtml+xml" then .html
  else if t = "application/json" || t = "text/javascript" then .json
  else if t = "text/xml" || t = "application/xml" then .xml
  else if t = "application/x-www-form-urlencoded" then .form
  else if t = "text/event-stream" then .eventStream
  else .unknown

/-- Model of `render.GetAcceptedContentType` for a request whose context
carries no content type (the program installs no `SetContentType`): the first
media type of the `Accept` header decides. -/
def GetAcceptedContentType (r : Request) : ContentType :=
  let contentType := GetContentType (TrimSpace (firstField ',' r.accept))
  if contentType = .unknown then .plainText else contentType

/-- The child elements of the XML element a `WeatherInfo` encodes to: the type
has no `xml` tags, so they carry the field names. -/
def WeatherInfo.xml (wi : WeatherInfo) : List (String × F64) :=
  [("Kelvin", wi.Kelvin), ("Celsius", wi.Celsius), ("Fahrenheit", wi.Fahrenheit)]

/-- Model of `render.Status(r, status)` followed by `render.Render(w, r, v)`:
the default responder writes the payload with the given status, as XML when
the request accepts XML first and as JSON otherwise.  The values are finite
(`json.Unmarshal` yields no others), so the encoding does not fail. -/
def render (r : Request) (status : Nat) (v : WeatherInfo) : Response :=
  match GetAcceptedContentType r with
  | .xml => { status := status, body := .xml "WeatherInfo" v.xml }
  | _ => { status := status, body := .json v.json }

/-- Model of `weatherHandler`: the response and the effects, in order. -/
def weatherHandler (w : World) (r : Request) : Response × List Event :=
  let cep := r.cep
  if !isValidCep cep then
    (httpError "invalid zipcode" StatusUnprocessableEntity, [.log ("cep inválido: " ++ cep)])
  else
    match getLocationData w cep with
    | (.error err, ev) =>
      (httpError (StatusText StatusInternalServerError) StatusInternalServerError,
        ev ++ [.log ("getLocationData: " ++ err)])
    | (.ok none, ev) => (httpError "can not find zipcode" StatusNotFound, ev)
    | (.ok (some cepInfo), ev) =>
      match getWeatherData w cepInfo.City with
      | (.error err, ev') =>
        (httpError (StatusText StatusInternalServerError) StatusInternalServerError,
          ev ++ ev' ++ [.log ("getWeatherData: " ++ err)])
      | (.ok weatherInfo, ev') => (render r 200 weatherInfo, ev ++ ev')

/-- Model of `middleware.Timeout(d)` as installed in `main`: the handler runs
with a context derived from the inbound one with a deadline. -/
def Timeout {α : Type} (seconds : Nat) (next : Request → α) (r : Request) : α :=
  next { r with ctx := .withTimeout r.ctx seconds }

/-- The route `GET /weather/{cep}` as `main` serves it, under the 60 second timeout. -/
def serveWeather (w : World) (r : Request) : Response × List Event :=
  Timeout 60 (weatherHandler w) r

/-! ## A concrete world, for evaluation -/

/-- A lookup response body for an assigned postal code. -/
def sampleLocationBody : String :=
  "\x7b\"cep\": \"30280-160\", \"logradouro\": \"Rua Niquelina\", \"bairro\": \"Santa Efigênia\", \"localidade\": \"Belo Horizonte\", \"uf\": \"MG\"\x7d"

/-- The lookup response body for an unassigned postal code. -/
def sampleNotFoundBody : String := "\x7b\"erro\": true\x7d"

/-- A weather response body with 25 degrees Celsius. -/
def sampleWeatherBody : String :=
  "\x7b\"current\": \x7b\"temp_c\": 25.0, \"temp_f\": 77.0\x7d\x7d"

/-- A weather response body with a very large Celsius value, `2^60`. -/
def hugeWeatherBody : String :=
  "\x7b\"current\": \x7b\"temp_c\": 1152921504606846976, \"temp_f\": 77.0\x7d\x7d"

/-- A world in which the lookup service knows `30280160` (Belo Horizonte) and
reports `99280160` as unassigned, and the weather service answers the query for
Belo Horizonte with the given status code and body, which decodes to the given
Celsius and Fahrenheit values, or does not decode when none are given; every
other URL is unreachable. -/
def sampleWorld (weatherStatus : Nat) (weatherBody : String) (decoded : Option (ℚ × ℚ)) :
    World where
  conf := { port := "8080", weatherApiKey := "KEY" }
  roundTrip := fun url =>
    if url = "http://viacep.com.br/ws/30280160/json/" then .response 200 sampleLocationBody
    else if url = "http://viacep.com.br/ws/99280160/json/" then .response 200 sampleNotFoundBody
    else if url = "https://api.weatherapi.com/v1/current.json?key=KEY&q=Belo+Horizonte&aqi=no" then
      .response weatherStatus weatherBody
    else .doFailed "no such host"
  unmarshalLocation := fun body =>
    if body = sampleLocationBody then
      .ok { Cep := "30280-160", Logradouro := "Rua Niquelina", Complemento := "", Unidade := "",
            Bairro := "Santa Efigênia", Localidade := "Belo Horizonte", Uf := "MG", Ibge := "",
            Gia := "", Ddd := "", Siafi := "", Err := false }
    else if body = sampleNotFoundBody then
      .ok { Cep := "", Logradouro := "", Complemento := "", Unidade := "", Bairro := "",
            Localidade := "", Uf := "", Ibge := "", Gia := "", Ddd := "", Siafi := "", Err := true }
    else .error "unexpected end of JSON input"
  unmarshalWeather := fun body =>
    if body = weatherBody then
      match decoded with
      | some (c, f) => .ok { TempC := .finite c, TempF := .finite f }
      | none => .error "invalid character S looking for beginning of value"
    else .error "unexpected end of JSON input"

/-- The sample world with a healthy weather service. -/
def okWorld : World := sampleWorld 200 sampleWeatherBody (some (25, 77))

/-- The body the weather service sends, with status 400, for a place it does not know. -/
def unknownPlaceBody : String :=
  "\x7b\"error\": \x7b\"code\": 1006, \"message\": \"No matching location found.\"\x7d\x7d"

/-- The sample world with a weather service that does not know Belo Horizonte:
it answers 400 with an error object, a JSON body without a `current` member,
which `json.Unmarshal` decodes to the zero-valued record. -/
def unknownPlaceWorld : World := sampleWorld 400 unknownPlaceBody (some (0, 0))

/-- The world `w` with every response status code replaced through `f`, the
bodies unchanged. -/
def World.mapStatus (w : World) (f : String → Nat → Nat) : World :=
  { w with
    roundTrip := fun url =>
      match w.roundTrip url with
      | .response status body => .response (f url status) body
      | .readFailed status err => .readFailed (f url status) err
      | other => other }

/-- The sample world with a weather service that reports `2^60` degrees Celsius. -/
def hugeWorld : World := sampleWorld 200 hugeWeatherBody (some (2 ^ 60, 77))

/-! ## The validator -/

theorem mem_digit_run {p q : Pos} :
    q ∈ Regex.digit.run p ↔
      ∃ c, isDigit c = true ∧ p.rest = c :: q.rest ∧ q.consumed = p.consumed + 1 := by
  obtain ⟨k, l⟩ := p
  obtain ⟨k', l'⟩ := q
  cases l with
  | nil => simp [Regex.run]
  | cons c cs =>
    by_cases hc : isDigit c = true
    · simp only [Regex.run, hc, if_true, List.mem_singleton, Pos.mk.injEq, List.cons.injEq]
      constructor
      · rintro ⟨rfl, rfl⟩
        exact ⟨c, hc, ⟨rfl, rfl⟩, rfl⟩
      · rintro ⟨c', _, ⟨rfl, rfl⟩, rfl⟩
        exact ⟨rfl, rfl⟩
    · simp only [Regex.run, hc, List.cons.injEq]
      constructor
      · intro h
        simp at h
      · rintro ⟨c', hc', ⟨rfl, rfl⟩, rfl⟩
        exact absurd hc' hc

theorem mem_iterate_digit (n : Nat) (p q : Pos) :
    q ∈ iterate Regex.digit.run n p ↔
      ∃ ds : List Char, ds.length = n ∧ (∀ c ∈ ds, isDigit c = true) ∧
        p.rest = ds ++ q.rest ∧ q.consumed = p.consumed + n := by
  induction n generalizing p with
  | zero =>
    obtain ⟨k, l⟩ := p
    obtain ⟨k', l'⟩ := q
    simp only [iterate, List.mem_singleton, Pos.mk.injEq, List.length_eq_zero, Nat.add_zero]
    constructor
    · rintro ⟨rfl, rfl⟩
      exact ⟨[], rfl, by simp, rfl, rfl⟩
    · rintro ⟨ds, rfl, _, h, rfl⟩
      exact ⟨rfl, by simpa using h.symm⟩
  | succ n ih =>
    simp only [iterate, List.mem_flatMap, mem_digit_run, ih]
    constructor
    · rintro ⟨m, ⟨c, hc, hrest, hcons⟩, ds, hlen, hds, hm, hq⟩
      refine ⟨c :: ds, by simp [hlen], ?_, ?_, ?_⟩
      · intro x hx
        rcases List.mem_cons.mp hx with rfl | hx
        · exact hc
        · exact hds x hx
      · rw [hrest, hm]
        rfl
      · omega
    · rintro ⟨ds, hlen, hds, hrest, hq⟩
      cases ds with
      | nil => simp at hlen
      | cons c ds =>
        refine ⟨⟨p.consumed + 1, ds ++ q.rest⟩, ⟨c, hds c (List.mem_cons_self _ _), ?_, rfl⟩,
          ds, by simpa using hlen, fun x hx => hds x (List.mem_cons_of_mem _ hx), rfl, ?_⟩
        · simpa using hrest
        · simp only
          omega

theorem cepRegex_run (p : Pos) :
    cepRegex.run p =
      (if p.consumed = 0 then [p] else []).flatMap fun a =>
        (iterate Regex.digit.run 8 a).flatMap fun b => if b.rest = [] then [b] else [] :=
  rfl

theorem mem_cepRegex_run (p q : Pos) :
    q ∈ cepRegex.run p ↔
      p.consumed = 0 ∧ p.rest.length = 8 ∧ (∀ c ∈ p.rest, isDigit c = true) ∧
        q = ⟨8, []⟩ := by
  simp only [cepRegex_run, List.mem_flatMap, mem_iterate_digit]
  constructor
  · rintro ⟨a, ha, b, ⟨ds, hlen, hds, hrest, hcons⟩, hq⟩
    by_cases h0 : p.consumed = 0
    · rw [if_pos h0] at ha
      have hap : a = p := by simpa using ha
      subst hap
      by_cases hb : b.rest = []
      · rw [if_pos hb] at hq
        have hqb : q = b := by simpa using hq
        subst hqb
        rw [hb, List.append_nil] at hrest
        refine ⟨h0, by rw [hrest, hlen], by rw [hrest]; exact hds, ?_⟩
        obtain ⟨k, l⟩ := q
        simp only at hb hcons
        simp only [Pos.mk.injEq]
        exact ⟨by omega, hb⟩
      · rw [if_neg hb] at hq
        simp at hq
    · rw [if_neg h0] at ha
      simp at ha
  · rintro ⟨h0, hlen, hds, rfl⟩
    exact ⟨p, by simp [h0], ⟨8, []⟩, ⟨p.rest, hlen, hds, by simp, by simp [h0]⟩, by simp⟩

theorem cepRegex_search_succ (k : Nat) (l : List Char) :
    cepRegex.search (k + 1) l = false := by
  induction l generalizing k with
  | nil =>
    have h : cepRegex.run ⟨k + 1, []⟩ = [] := by
      apply List.eq_nil_iff_forall_not_mem.mpr
      intro q hq
      have := (mem_cepRegex_run _ _).mp hq
      simp at this
    simp [Regex.search, h]
  | cons c cs ih =>
    have h : cepRegex.run ⟨k + 1, c :: cs⟩ = [] := by
      apply List.eq_nil_iff_forall_not_mem.mpr
      intro q hq
      have := (mem_cepRegex_run _ _).mp hq
      simp at this
    simp [Regex.search, h, ih]

theorem cepRegex_search_zero (l : List Char) :
    cepRegex.search 0 l = !(cepRegex.run ⟨0, l⟩).isEmpty := by
  cases l with
  | nil => rfl
  | cons c cs => simp [Regex.search, cepRegex_search_succ]

theorem isValidCep_examples :
    isValidCep "30280160" = true ∧ isValidCep "30280-10" = false ∧
    isValidCep "3028016" = false ∧ isValidCep "30280-100" = false ∧
    isValidCep "30280160\n" = false ∧ isValidCep " 30280160" = false ∧
    isValidCep "" = false ∧ isValidCep "3028016٣" = false ∧
    isValidCep "302801600" = false := by
  decide

theorem isDigit_iff (c : Char) : isDigit c = true ↔ '0' ≤ c ∧ c ≤ '9' := by
  simp [isDigit]

/-- C1: `isValidCep s` is true exactly when `s` has exactly 8 characters, each
one of the decimal digits `'0'..'9'`. -/
theorem isValidCep_iff (s : String) :
    isValidCep s = true ↔ s.length = 8 ∧ ∀ c ∈ s.data, '0' ≤ c ∧ c ≤ '9' := by
  unfold isValidCep Regex.MatchString
  rw [cepRegex_search_zero]
  simp only [Bool.not_eq_true', List.isEmpty_eq_false, String.length]
  constructor
  · intro h
    obtain ⟨q, hq⟩ := List.exists_mem_of_ne_nil _ h
    obtain ⟨_, hlen, hds, _⟩ := (mem_cepRegex_run _ _).mp hq
    exact ⟨hlen, fun c hc => (isDigit_iff c).mp (hds c hc)⟩
  · rintro ⟨hlen, hds⟩
    have : (⟨8, []⟩ : Pos) ∈ cepRegex.run ⟨0, s.data⟩ :=
      (mem_cepRegex_run _ _).mpr ⟨rfl, hlen, fun c hc => (isDigit_iff c).mpr (hds c hc), rfl⟩
    exact List.ne_nil_of_mem this

/-! ## The handler: error paths -/

theorem weatherHandler_of_invalid (w : World) (r : Request) (h : isValidCep r.cep = false) :
    weatherHandler w r =
      (httpError "invalid zipcode" StatusUnprocessableEntity,
        [.log ("cep inválido: " ++ r.cep)]) := by
  simp [weatherHandler, h]

/-- C2: for a postal code that `isValidCep` rejects, `weatherHandler` answers
422 with the plain-text message "invalid zipcode" (as `http.Error` writes it,
newline-terminated), and its only effect is a log line: no resolver is called
and no outbound request is sent. -/
theorem weatherHandler_invalid (w : World) (r : Request) (h : isValidCep r.cep = false) :
    (weatherHandler w r).1.status = 422 ∧
    (weatherHandler w r).1.body = .text "invalid zipcode\n" ∧
    (weatherHandler w r).2 = [.log ("cep inválido: " ++ r.cep)] ∧
    ∀ e ∈ (weatherHandler w r).2,
      e.isOutbound = false ∧ e.isCallOf "getLocationData" = false ∧
        e.isCallOf "getWeatherData" = false := by
  rw [weatherHandler_of_invalid w r h]
  refine ⟨rfl, rfl, rfl, ?_⟩
  intro e he
  simp only [List.mem_singleton] at he
  subst he
  exact ⟨rfl, rfl, rfl⟩

theorem weatherHandler_invalid_witness :
    isValidCep "30280-100" = false ∧
    (weatherHandler okWorld ⟨.inbound 0, "30280-100", ""⟩).1.status = 422 ∧
    (weatherHandler okWorld ⟨.inbound 0, "30280-100", ""⟩).2 = [.log "cep inválido: 30280-100"] :=
  ⟨by decide,
    (weatherHandler_invalid okWorld ⟨.inbound 0, "30280-100", ""⟩ (by decide)).1,
    (weatherHandler_invalid okWorld ⟨.inbound 0, "30280-100", ""⟩ (by decide)).2.2.1⟩

theorem request_events {α : Type} (w : World) (unmarshal : String → Except String α)
    (ctx : Ctx) (url : String) :
    (request w unmarshal ctx url).2 =
      match w.roundTrip url with
      | .createFailed _ => []
      | _ => [.outbound ctx url] := by
  unfold request
  cases h : w.roundTrip url with
  | createFailed err => rfl
  | doFailed err => rfl
  | readFailed st err => rfl
  | response st body => cases h2 : unmarshal body <;> simp [h2]

theorem getLocationData_events (w : World) (cep : String) :
    (getLocationData w cep).2 =
      .call "getLocationData" cep ::
        (request w w.unmarshalLocation Ctx.background
          ("http://viacep.com.br/ws/" ++ cep ++ "/json/")).2 := by
  unfold getLocationData
  rcases request w w.unmarshalLocation Ctx.background
    ("http://viacep.com.br/ws/" ++ cep ++ "/json/") with ⟨res, ev⟩
  cases res with
  | error err => rfl
  | ok data => cases hE : data.Err <;> simp [hE]

theorem getWeatherData_events (w : World) (location : String) :
    (getWeatherData w location).2 =
      .call "getWeatherData" location ::
        (request w w.unmarshalWeather Ctx.background
          ("https://api.weatherapi.com/v1/current.json?key=" ++ w.conf.weatherApiKey ++
            "&q=" ++ QueryEscape location ++ "&aqi=no")).2 := by
  unfold getWeatherData
  simp only
  rcases request w w.unmarshalWeather Ctx.background
    ("https://api.weatherapi.com/v1/current.json?key=" ++ w.conf.weatherApiKey ++
      "&q=" ++ QueryEscape location ++ "&aqi=no") with ⟨res, ev⟩
  cases res <;> rfl

theorem request_events_not_call {α : Type} (w : World) (unmarshal : String → Except String α)
    (ctx : Ctx) (url : String) (fn : String) :
    ∀ e ∈ (request w unmarshal ctx url).2, e.isCallOf fn = false := by
  rw [request_events]
  intro e he
  cases h : w.roundTrip url <;> rw [h] at he <;> simp at he <;> subst he <;> rfl

theorem getLocationData_events_not_weather (w : World) (cep : String) :
    ∀ e ∈ (getLocationData w cep).2, e.isCallOf "getWeatherData" = false := by
  rw [getLocationData_events]
  intro e he
  rcases List.mem_cons.mp he with rfl | he
  · simp [Event.isCallOf]
  · exact request_events_not_call _ _ _ _ _ e he

theorem weatherHandler_of_location_none (w : World) (r : Request)
    (hv : isValidCep r.cep = true) (hl : (getLocationData w r.cep).1 = .ok none) :
    weatherHandler w r =
      (httpError "can not find zipcode" StatusNotFound, (getLocationData w r.cep).2) := by
  have hg : getLocationData w r.cep = (.ok none, (getLocationData w r.cep).2) :=
    Prod.ext hl rfl
  conv_lhs => unfold weatherHandler; dsimp only; rw [hg]
  simp [hv]

theorem weatherHandler_of_location_error (w : World) (r : Request)
    (hv : isValidCep r.cep = true) (err : String)
    (hl : (getLocationData w r.cep).1 = .error err) :
    weatherHandler w r =
      (httpError "Internal Server Error" 500,
        (getLocationData w r.cep).2 ++ [.log ("getLocationData: " ++ err)]) := by
  have hg : getLocationData w r.cep = (.error err, (getLocationData w r.cep).2) :=
    Prod.ext hl rfl
  conv_lhs => unfold weatherHandler; dsimp only; rw [hg]
  simp [hv, StatusText, StatusInternalServerError]

theorem weatherHandler_of_weather_error (w : World) (r : Request)
    (hv : isValidCep r.cep = true) (L : cepInfo) (err : String)
    (hl : (getLocationData w r.cep).1 = .ok (some L))
    (hw : (getWeatherData w L.City).1 = .error err) :
    weatherHandler w r =
      (httpError "Internal Server Error" 500,
        (getLocationData w r.cep).2 ++ (getWeatherData w L.City).2 ++
          [.log ("getWeatherData: " ++ err)]) := by
  have hg : getLocationData w r.cep = (.ok (some L), (getLocationData w r.cep).2) :=
    Prod.ext hl rfl
  have hg' : getWeatherData w L.City = (.error err, (getWeatherData w L.City).2) :=
    Prod.ext hw rfl
  conv_lhs => unfold weatherHandler; dsimp only; rw [hg]; dsimp only; rw [hg']
  simp [hv, StatusText, StatusInternalServerError]

theorem weatherHandler_of_weather_ok (w : World) (r : Request)
    (hv : isValidCep r.cep = true) (L : cepInfo) (wi : WeatherInfo)
    (hl : (getLocationData w r.cep).1 = .ok (some L))
    (hw : (getWeatherData w L.City).1 = .ok wi) :
    weatherHandler w r =
      (render r 200 wi, (getLocationData w r.cep).2 ++ (getWeatherData w L.City).2) := by
  have hg : getLocationData w r.cep = (.ok (some L), (getLocationData w r.cep).2) :=
    Prod.ext hl rfl
  have hg' : getWeatherData w L.City = (.ok wi, (getWeatherData w L.City).2) :=
    Prod.ext hw rfl
  conv_lhs => unfold weatherHandler; dsimp only; rw [hg]; dsimp only; rw [hg']
  simp [hv]

/-- C3: for a well-formed postal code for which `getLocationData` returns
absent with no error, `weatherHandler` answers 404 with a plain-text body, and
its effects are those of the lookup alone: the weather resolver is not called. -/
theorem weatherHandler_notFound (w : World) (r : Request)
    (hv : isValidCep r.cep = true) (hl : (getLocationData w r.cep).1 = .ok none) :
    (weatherHandler w r).1.status = 404 ∧
    (weatherHandler w r).1.body = .text "can not find zipcode\n" ∧
    (weatherHandler w r).2 = (getLocationData w r.cep).2 ∧
    ∀ e ∈ (weatherHandler w r).2, e.isCallOf "getWeatherData" = false := by
  rw [weatherHandler_of_location_none w r hv hl]
  exact ⟨rfl, rfl, rfl, getLocationData_events_not_weather w r.cep⟩

theorem weatherHandler_notFound_witness :
    isValidCep "99280160" = true ∧
    (getLocationData okWorld "99280160").1 = .ok none ∧
    (weatherHandler okWorld ⟨.inbound 0, "99280160", ""⟩).1.status = 404 :=
  ⟨by decide, by rfl,
    (weatherHandler_notFound okWorld ⟨.inbound 0, "99280160", ""⟩ (by decide) (by rfl)).1⟩

/-- C5: for a well-formed postal code, when `getLocationData` fails, or it
returns a location and `getWeatherData` then fails, `weatherHandler` answers
500 with the status text "Internal Server Error" as the whole body, the same
response whatever the error was; and after a location error the weather
resolver is not called. -/
theorem weatherHandler_internalError (w : World) (r : Request)
    (hv : isValidCep r.cep = true) :
    (∀ err, (getLocationData w r.cep).1 = .error err →
      (weatherHandler w r).1 = ⟨500, .text "Internal Server Error\n"⟩ ∧
      (weatherHandler w r).1.body = .text (StatusText 500 ++ "\n") ∧
      ∀ e ∈ (weatherHandler w r).2, e.isCallOf "getWeatherData" = false) ∧
    (∀ L err, (getLocationData w r.cep).1 = .ok (some L) →
      (getWeatherData w L.City).1 = .error err →
      (weatherHandler w r).1 = ⟨500, .text "Internal Server Error\n"⟩ ∧
      (weatherHandler w r).1.body = .text (StatusText 500 ++ "\n")) := by
  constructor
  · intro err hl
    rw [weatherHandler_of_location_error w r hv err hl]
    refine ⟨rfl, rfl, ?_⟩
    intro e he
    rcases List.mem_append.mp he with he | he
    · exact getLocationData_events_not_weather w r.cep e he
    · simp only [List.mem_singleton] at he
      subst he
      rfl
  · intro L err hl hw
    rw [weatherHandler_of_weather_error w r hv L err hl hw]
    exact ⟨rfl, rfl⟩

theorem weatherHandler_internalError_witness :
    isValidCep "12345678" = true ∧
    (getLocationData okWorld "12345678").1 =
      .error "error requesting via cep: error to do request: no such host" ∧
    (weatherHandler okWorld ⟨.inbound 0, "12345678", ""⟩).1 =
      ⟨500, .text "Internal Server Error\n"⟩ :=
  ⟨by decide, by rfl,
    ((weatherHandler_internalError okWorld ⟨.inbound 0, "12345678", ""⟩ (by decide)).1
      "error requesting via cep: error to do request: no such host" (by rfl)).1⟩

/-! ## The resolvers -/

theorem request_of_response {α : Type} (w : World) (unmarshal : String → Except String α)
    (ctx : Ctx) (url : String) (st : Nat) (body : String)
    (hr : w.roundTrip url = .response st body) :
    request w unmarshal ctx url =
      (match unmarshal body with
        | .error err => .error ("error to unmarshal body: " ++ err)
        | .ok data => .ok data,
       [.outbound ctx url]) := by
  unfold request
  rw [hr]
  dsimp only
  cases h : unmarshal body <;> rfl

/-- C6: when the lookup response arrives and its body decodes into the record
`d`, `getLocationData` returns no error; it returns absent exactly when the
flag `d.Err` is set, and otherwise the location built from `d.Cep`, `d.Uf`,
`d.Localidade`, `d.Bairro`, `d.Logradouro`, also when the locality is empty. -/
theorem getLocationData_decoded (w : World) (cep : String) (st : Nat) (body : String)
    (d : getLocationData.respData)
    (hr : w.roundTrip ("http://viacep.com.br/ws/" ++ cep ++ "/json/") = .response st body)
    (hd : w.unmarshalLocation body = .ok d) :
    (getLocationData w cep).1 =
      .ok (if d.Err then none
        else some { Cep := d.Cep, State := d.Uf, City := d.Localidade,
                    Neighborhood := d.Bairro, Street := d.Logradouro }) ∧
    ((getLocationData w cep).1 = .ok none ↔ d.Err = true) ∧
    (d.Err = false → d.Localidade = "" →
      ∃ L, (getLocationData w cep).1 = .ok (some L) ∧ L.City = "") := by
  have h : (getLocationData w cep).1 =
      .ok (if d.Err then none
        else some { Cep := d.Cep, State := d.Uf, City := d.Localidade,
                    Neighborhood := d.Bairro, Street := d.Logradouro }) := by
    unfold getLocationData
    rw [request_of_response w _ _ _ st body hr, hd]
    cases hE : d.Err <;> simp [hE]
  refine ⟨h, ?_, ?_⟩
  · rw [h]
    cases hE : d.Err <;> simp
  · intro hE hloc
    rw [h, hE]
    exact ⟨_, rfl, hloc⟩

theorem getLocationData_decoded_witness :
    (getLocationData okWorld "30280160").1 =
      .ok (some { Cep := "30280-160", State := "MG", City := "Belo Horizonte",
                  Neighborhood := "Santa Efigênia", Street := "Rua Niquelina" }) :=
  (getLocationData_decoded okWorld "30280160" 200 sampleLocationBody
    { Cep := "30280-160", Logradouro := "Rua Niquelina", Complemento := "", Unidade := "",
      Bairro := "Santa Efigênia", Localidade := "Belo Horizonte", Uf := "MG", Ibge := "",
      Gia := "", Ddd := "", Siafi := "", Err := false } (by rfl) (by rfl)).1

theorem getWeatherData_of_response (w : World) (location : String) (st : Nat) (body : String)
    (hr : w.roundTrip ("https://api.weatherapi.com/v1/current.json?key=" ++
      w.conf.weatherApiKey ++ "&q=" ++ QueryEscape location ++ "&aqi=no") = .response st body) :
    (getWeatherData w location).1 =
      match w.unmarshalWeather body with
      | .error err =>
        .error ("error requesting weather api: " ++ ("error to unmarshal body: " ++ err))
      | .ok data =>
        .ok { Celsius := data.TempC, Fahrenheit := data.TempF,
              Kelvin := data.TempC.add (.finite 273) } := by
  unfold getWeatherData
  simp only
  rw [request_of_response w _ _ _ st body hr]
  cases h : w.unmarshalWeather body <;> rfl

theorem getWeatherData_ok (w : World) (location : String) (wi : WeatherInfo)
    (h : (getWeatherData w location).1 = .ok wi) :
    ∃ st body c f,
      w.roundTrip ("https://api.weatherapi.com/v1/current.json?key=" ++
        w.conf.weatherApiKey ++ "&q=" ++ QueryEscape location ++ "&aqi=no") = .response st body ∧
      w.unmarshalWeather body = .ok ⟨c, f⟩ ∧
      wi = { Celsius := c, Fahrenheit := f, Kelvin := c.add (.finite 273) } := by
  cases hr : w.roundTrip ("https://api.weatherapi.com/v1/current.json?key=" ++
      w.conf.weatherApiKey ++ "&q=" ++ QueryEscape location ++ "&aqi=no") with
  | createFailed err => simp [getWeatherData, request, hr] at h
  | doFailed err => simp [getWeatherData, request, hr] at h
  | readFailed st err => simp [getWeatherData, request, hr] at h
  | response st body =>
    rw [getWeatherData_of_response w location st body hr] at h
    cases hd : w.unmarshalWeather body with
    | error err => simp [hd] at h
    | ok data =>
      rw [hd] at h
      simp only [Except.ok.injEq] at h
      exact ⟨st, body, data.TempC, data.TempF, rfl, hd, h.symm⟩

/-! ## float64 rounding -/

theorem abs_roundHalfEven_sub_le (t : ℚ) : |(roundHalfEven t : ℚ) - t| ≤ 1/2 := by
  have h1 := Int.floor_le t
  have h2 := Int.lt_floor_add_one t
  unfold roundHalfEven
  simp only
  split_ifs with ha hb hc
  · rw [abs_le]; constructor <;> linarith
  · rw [abs_le]; push_cast; constructor <;> linarith
  · rw [abs_le]; constructor <;> linarith
  · rw [abs_le]; push_cast; constructor <;> linarith

theorem roundHalfEven_eq_of_even (N : ℤ) (t : ℚ) (hN : N % 2 = 0) (h : |t - N| ≤ 1/2) :
    roundHalfEven t = N := by
  rw [abs_le] at h
  obtain ⟨hl, hu⟩ := h
  by_cases hs : (N : ℚ) ≤ t
  · have hf : ⌊t⌋ = N := by
      rw [Int.floor_eq_iff]
      constructor
      · exact hs
      · linarith
    unfold roundHalfEven
    simp only [hf]
    split_ifs with ha hb
    · rfl
    · linarith
    · rfl
  · push_neg at hs
    have hf : ⌊t⌋ = N - 1 := by
      rw [Int.floor_eq_iff]
      push_cast
      constructor <;> linarith
    unfold roundHalfEven
    simp only [hf]
    push_cast
    split_ifs with ha hb hc
    · linarith
    · ring
    · omega
    · ring

theorem roundHalfEven_eq_of_lt (N : ℤ) (t : ℚ) (h : |t - N| < 1/2) :
    roundHalfEven t = N := by
  rw [abs_lt] at h
  obtain ⟨hl, hu⟩ := h
  by_cases hs : (N : ℚ) ≤ t
  · have hf : ⌊t⌋ = N := by
      rw [Int.floor_eq_iff]
      constructor
      · exact hs
      · linarith
    unfold roundHalfEven
    simp only [hf]
    split_ifs <;> rfl
  · push_neg at hs
    have hf : ⌊t⌋ = N - 1 := by
      rw [Int.floor_eq_iff]
      push_cast
      constructor <;> linarith
    unfold roundHalfEven
    simp only [hf]
    push_cast
    split_ifs <;> first | (exfalso; linarith) | ring

theorem binade_eq (x : ℚ) (k : ℤ) (hk : -1022 ≤ k) (hlo : (2:ℚ) ^ k ≤ |x|)
    (hhi : |x| < (2:ℚ) ^ (k + 1)) : binade x = k := by
  have hpos : 0 < |x| := lt_of_lt_of_le (by positivity) hlo
  have h1 : k ≤ Int.log 2 |x| := by
    rw [← Int.zpow_le_iff_le_log (by norm_num) hpos]
    exact_mod_cast hlo
  have h2 : Int.log 2 |x| < k + 1 := by
    rw [← Int.lt_zpow_iff_log_lt (by norm_num) hpos]
    exact_mod_cast hhi
  unfold binade
  omega

theorem binade_le (x : ℚ) (k : ℤ) (hk : -1022 ≤ k) (hx : x ≠ 0)
    (hhi : |x| < (2:ℚ) ^ (k + 1)) : binade x ≤ k := by
  have hpos : 0 < |x| := abs_pos.mpr hx
  have h2 : Int.log 2 |x| < k + 1 := by
    rw [← Int.lt_zpow_iff_log_lt (by norm_num) hpos]
    exact_mod_cast hhi
  unfold binade
  omega


theorem round64_of_binade (x : ℚ) (k N : ℤ) (hx : x ≠ 0) (hk : binade x = k)
    (hN : roundHalfEven (x / 2 ^ (k - 52)) = N) (hfin : |(N : ℚ) * 2 ^ (k - 52)| < 2 ^ 1024) :
    round64 x = .finite (N * 2 ^ (k - 52)) := by
  unfold round64
  simp only [hx, if_false, hk, hN]
  rw [if_neg (not_le.mpr hfin)]

theorem round64_error (x : ℚ) (hx : |x| < 512) :
    ∃ y, round64 x = .finite y ∧ |y - x| ≤ 1 / 2 ^ 45 := by
  by_cases h0 : x = 0
  · refine ⟨0, by simp [round64, h0], by simp [h0]⟩
  · have hb : binade x ≤ 8 := binade_le x 8 (by norm_num) h0 (by norm_num; exact hx)
    set u : ℚ := 2 ^ (binade x - 52) with hu
    have hupos : 0 < u := by positivity
    have hule : u ≤ 1 / 2 ^ 44 := by
      have : (2:ℚ) ^ (binade x - 52) ≤ 2 ^ (-44 : ℤ) :=
        zpow_le_zpow_right₀ (by norm_num) (by omega)
      calc u ≤ 2 ^ (-44 : ℤ) := this
        _ = 1 / 2 ^ 44 := by norm_num [zpow_neg]
    have herr := abs_roundHalfEven_sub_le (x / u)
    have hyx : (roundHalfEven (x / u) : ℚ) * u - x = ((roundHalfEven (x / u) : ℚ) - x / u) * u := by
      field_simp
    have hbound : |(roundHalfEven (x / u) : ℚ) * u - x| ≤ 1 / 2 ^ 45 := by
      rw [hyx, abs_mul, abs_of_pos hupos]
      calc |(roundHalfEven (x / u) : ℚ) - x / u| * u ≤ 1 / 2 * (1 / 2 ^ 44) :=
            mul_le_mul herr hule hupos.le (by norm_num)
        _ = 1 / 2 ^ 45 := by norm_num
    refine ⟨roundHalfEven (x / u) * u, ?_, hbound⟩
    unfold round64
    simp only [h0, if_false]
    rw [if_neg]
    rw [not_le]
    have h1 : |(roundHalfEven (x / u) : ℚ) * u| ≤ |(roundHalfEven (x / u) : ℚ) * u - x| + |x| := by
      have := abs_add ((roundHalfEven (x / u) : ℚ) * u - x) x
      simpa using this
    calc |(roundHalfEven (x / u) : ℚ) * u| ≤ |(roundHalfEven (x / u) : ℚ) * u - x| + |x| := h1
      _ < 1 / 2 ^ 45 + 512 := by linarith
      _ < 2 ^ 1024 := by norm_num

theorem round64_near_273 (d : ℚ) (hd : |d| ≤ 1 / 2 ^ 45) : round64 (273 + d) = .finite 273 := by
  rw [abs_le] at hd
  obtain ⟨hl, hu⟩ := hd
  have hsmall : (1:ℚ) / 2 ^ 45 < 1 := by norm_num
  have hpos : 0 < 273 + d := by linarith
  have hb : binade (273 + d) = 8 := by
    apply binade_eq
    · norm_num
    · rw [abs_of_pos hpos]; norm_num; linarith
    · rw [abs_of_pos hpos]; norm_num; linarith
  have hr : roundHalfEven ((273 + d) / 2 ^ ((8:ℤ) - 52)) = 273 * 2 ^ 44 := by
    apply roundHalfEven_eq_of_even
    · norm_num
    · have : (273 + d) / 2 ^ ((8:ℤ) - 52) - ((273 * 2 ^ 44 : ℤ) : ℚ) = d * 2 ^ 44 := by
        norm_num [zpow_neg]
        ring
      rw [this, abs_le]
      constructor
      · have := mul_le_mul_of_nonneg_right hl (by norm_num : (0:ℚ) ≤ 2 ^ 44)
        norm_num at this ⊢
        linarith
      · have := mul_le_mul_of_nonneg_right hu (by norm_num : (0:ℚ) ≤ 2 ^ 44)
        norm_num at this ⊢
        linarith
  rw [round64_of_binade (273 + d) 8 (273 * 2 ^ 44) hpos.ne' hb hr (by norm_num [zpow_neg, abs_of_pos])]
  congr 1
  norm_num [zpow_neg]

theorem kelvin_sub_celsius (c : ℚ) (h1 : -785 < c) (h2 : c < 239) :
    ((F64.finite c).add (.finite 273)).sub (.finite c) = .finite 273 := by
  obtain ⟨y, hy, hyerr⟩ := round64_error (c + 273) (by rw [abs_lt]; constructor <;> linarith)
  simp only [F64.add, hy, F64.sub]
  have : y - c = 273 + (y - (c + 273)) := by ring
  rw [this]
  exact round64_near_273 _ hyerr

theorem round64_huge : round64 (2^60 + 273) = .finite (2^60 + 256) := by
  have hb : binade (2^60 + 273) = 60 := by
    apply binade_eq <;> norm_num [abs_of_pos]
  have hr : roundHalfEven ((2^60 + 273) / 2 ^ ((60:ℤ) - 52)) = 2^52 + 1 := by
    apply roundHalfEven_eq_of_lt
    norm_num [abs_lt]
  rw [round64_of_binade _ 60 (2^52 + 1) (by norm_num) hb hr (by norm_num [abs_of_pos])]
  congr 1
  norm_num

theorem round64_256 : round64 256 = .finite 256 := by
  have hb : binade 256 = 8 := by
    apply binade_eq <;> norm_num [abs_of_pos]
  have hr : roundHalfEven (256 / 2 ^ ((8:ℤ) - 52)) = 256 * 2 ^ 44 := by
    apply roundHalfEven_eq_of_lt
    norm_num [abs_lt, zpow_neg]
  rw [round64_of_binade _ 8 (256 * 2 ^ 44) (by norm_num) hb hr (by norm_num [abs_of_pos, zpow_neg])]
  congr 1
  norm_num [zpow_neg]

theorem round64_two_pow_60 : round64 (2 ^ 60) = .finite (2 ^ 60) := by
  have hb : binade (2 ^ 60) = 60 := by
    apply binade_eq <;> norm_num [abs_of_pos]
  have hr : roundHalfEven (2 ^ 60 / 2 ^ ((60:ℤ) - 52)) = 2 ^ 52 := by
    apply roundHalfEven_eq_of_lt
    norm_num [abs_lt]
  rw [round64_of_binade _ 60 (2 ^ 52) (by norm_num) hb hr (by norm_num [abs_of_pos])]
  congr 1
  norm_num

/-! ## The Kelvin field -/

/-- C7, as the code has it: a reading returned by `getWeatherData` has
`Kelvin` equal to the `float64` sum of `Celsius` and 273, and for a Celsius
value strictly between -785 and 239 the `float64` difference
`Kelvin - Celsius` compares equal to 273. -/
theorem getWeatherData_kelvin (w : World) (location : String) (wi : WeatherInfo)
    (h : (getWeatherData w location).1 = .ok wi) :
    wi.Kelvin = wi.Celsius.add (.finite 273) ∧
    ∀ c : ℚ, wi.Celsius = .finite c → -785 < c → c < 239 →
      F64.eq (wi.Kelvin.sub wi.Celsius) (.finite 273) = true := by
  obtain ⟨st, body, c, f, _, _, rfl⟩ := getWeatherData_ok w location wi h
  refine ⟨rfl, ?_⟩
  intro q hq h1 h2
  simp only at hq
  subst hq
  simp only
  rw [kelvin_sub_celsius q h1 h2]
  simp [F64.eq]

theorem getWeatherData_kelvin_witness :
    (getWeatherData okWorld "Belo Horizonte").1 =
      .ok { Celsius := .finite 25, Fahrenheit := .finite 77,
            Kelvin := (F64.finite 25).add (.finite 273) } ∧
    F64.eq (((F64.finite 25).add (.finite 273)).sub (.finite 25)) (.finite 273) = true :=
  ⟨by rfl,
    (getWeatherData_kelvin okWorld "Belo Horizonte"
      { Celsius := .finite 25, Fahrenheit := .finite 77,
        Kelvin := (F64.finite 25).add (.finite 273) } (by rfl)).2 25 rfl
      (by norm_num) (by norm_num)⟩

/-- C7 as stated fails: `2^60` is a `float64` value; when the weather response
carries it as the Celsius value, `getWeatherData` returns `Kelvin = 2^60 + 256`
(the sum `2^60 + 273` rounded), and `Kelvin - Celsius` is 256, not 273. -/
theorem kelvin_counterexample :
    round64 (2 ^ 60) = .finite (2 ^ 60) ∧
    (getWeatherData hugeWorld "Belo Horizonte").1 =
      .ok { Celsius := .finite (2 ^ 60), Fahrenheit := .finite 77,
            Kelvin := .finite (2 ^ 60 + 256) } ∧
    (F64.finite (2 ^ 60 + 256)).sub (.finite (2 ^ 60)) = .finite 256 ∧
    F64.eq ((F64.finite (2 ^ 60 + 256)).sub (.finite (2 ^ 60))) (.finite 273) = false := by
  have hsub : (F64.finite (2 ^ 60 + 256)).sub (.finite (2 ^ 60)) = .finite 256 := by
    simp only [F64.sub]
    rw [show (2 ^ 60 + 256 - 2 ^ 60 : ℚ) = 256 by norm_num]
    exact round64_256
  have hw : (getWeatherData hugeWorld "Belo Horizonte").1 =
      .ok { Celsius := .finite (2 ^ 60), Fahrenheit := .finite 77,
            Kelvin := (F64.finite (2 ^ 60)).add (.finite 273) } := by rfl
  refine ⟨round64_two_pow_60, ?_, hsub, ?_⟩
  · rw [hw]
    simp only [F64.add, round64_huge]
  · rw [hsub]
    simp [F64.eq]

/-! ## Query escaping -/

theorem utf8EncodeChar_lt (c : Char) : ∀ b ∈ utf8EncodeChar c, b < 256 := by
  have hv : c.toNat < 0x110000 := by
    have := c.valid
    rcases this with h | h
    · have : c.val.toNat < 0xd800 := h
      show c.val.toNat < 0x110000
      omega
    · exact h.2
  intro b hb
  unfold utf8EncodeChar at hb
  simp only at hb
  split_ifs at hb <;> simp at hb <;> omega

theorem bytes_lt (s : String) : ∀ b ∈ bytes s, b < 256 := by
  intro b hb
  unfold bytes at hb
  rw [List.mem_flatMap] at hb
  obtain ⟨c, _, hc⟩ := hb
  exact utf8EncodeChar_lt c b hc

set_option maxRecDepth 100000 in
theorem toNat_ofNat_ascii : ∀ b : Nat, b < 128 → (Char.ofNat b).toNat = b := by
  decide

set_option maxRecDepth 100000 in
theorem escapeByte_safe : ∀ c : Nat, c < 256 → ∀ b ∈ escapeByte c,
    b < 128 ∧ b ≠ '&'.toNat ∧ b ≠ '='.toNat ∧ b ≠ '#'.toNat ∧ b ≠ '?'.toNat ∧ b ≠ ' '.toNat := by
  decide

set_option maxRecDepth 100000 in
theorem escapeByte_cases : ∀ c : Nat, c < 256 →
    (c = ' '.toNat ∧ escapeByte c = ['+'.toNat]) ∨
    (escapeByte c = ['%'.toNat, upperhex.getD (c >>> 4) 0, upperhex.getD (c &&& 15) 0] ∧
      ishex (upperhex.getD (c >>> 4) 0) = true ∧ ishex (upperhex.getD (c &&& 15) 0) = true ∧
      ((unhex (upperhex.getD (c >>> 4) 0) <<< 4) % 256 |||
        unhex (upperhex.getD (c &&& 15) 0)) = c) ∨
    (escapeByte c = [c] ∧ c ≠ '%'.toNat ∧ c ≠ '+'.toNat) := by
  decide

theorem unescape_cons_other (c : Nat) (rest : List Nat) (h1 : c ≠ '%'.toNat) :
    unescape (c :: rest) =
      if c = '+'.toNat then (unescape rest).map (' '.toNat :: ·)
      else (unescape rest).map (c :: ·) := by
  conv_lhs => unfold unescape
  rw [if_neg h1]

theorem unescape_cons_percent (a b : Nat) (rest : List Nat)
    (ha : ishex a = true) (hb : ishex b = true) :
    unescape ('%'.toNat :: a :: b :: rest) =
      (unescape rest).map (((unhex a <<< 4) % 256 ||| unhex b) :: ·) := by
  conv_lhs => unfold unescape
  simp only [if_true, ha, hb, Bool.and_self]

theorem unescape_escapeByte (c : Nat) (hc : c < 256) (rest : List Nat) :
    unescape (escapeByte c ++ rest) = (unescape rest).map (c :: ·) := by
  rcases escapeByte_cases c hc with ⟨h1, h2⟩ | ⟨h1, h2, h3, h4⟩ | ⟨h1, h2, h3⟩
  · rw [h2, h1, List.singleton_append, unescape_cons_other _ _ (by decide), if_pos rfl]
  · rw [h1]
    show unescape ('%'.toNat :: upperhex.getD (c >>> 4) 0 :: upperhex.getD (c &&& 15) 0 :: rest) = _
    rw [unescape_cons_percent _ _ _ h2 h3, h4]
  · rw [h1, List.singleton_append, unescape_cons_other _ _ h2, if_neg h3]

theorem unescape_escape (s : List Nat) (hs : ∀ b ∈ s, b < 256) :
    unescape (escape s) = .ok s := by
  induction s with
  | nil => simp [escape, unescape]
  | cons c cs ih =>
    have : escape (c :: cs) = escapeByte c ++ escape cs := by simp [escape]
    rw [this, unescape_escapeByte c (hs c (List.mem_cons_self _ _)),
      ih (fun b hb => hs b (List.mem_cons_of_mem _ hb))]
    rfl

theorem escape_safe (s : List Nat) (hs : ∀ b ∈ s, b < 256) : ∀ b ∈ escape s,
    b < 128 ∧ b ≠ '&'.toNat ∧ b ≠ '='.toNat ∧ b ≠ '#'.toNat ∧ b ≠ '?'.toNat ∧ b ≠ ' '.toNat := by
  intro b hb
  unfold escape at hb
  rw [List.mem_flatMap] at hb
  obtain ⟨c, hc, hbc⟩ := hb
  exact escapeByte_safe c (hs c hc) b hbc

theorem bytes_fromBytes (bs : List Nat) (h : ∀ b ∈ bs, b < 128) : bytes (fromBytes bs) = bs := by
  induction bs with
  | nil => rfl
  | cons b bs ih =>
    have hb : b < 128 := h b (List.mem_cons_self _ _)
    have ih' := ih (fun x hx => h x (List.mem_cons_of_mem _ hx))
    unfold bytes fromBytes at ih' ⊢
    simp only [List.map_cons, List.flatMap_cons] at ih' ⊢
    rw [ih']
    have : utf8EncodeChar (Char.ofNat b) = [b] := by
      unfold utf8EncodeChar
      simp only [toNat_ofNat_ascii b hb]
      rw [if_pos (by omega)]
    rw [this]
    rfl

theorem QueryUnescape_QueryEscape (s : String) : QueryUnescape (QueryEscape s) = .ok (bytes s) := by
  unfold QueryUnescape QueryEscape
  rw [bytes_fromBytes _ (fun b hb => (escape_safe _ (bytes_lt s) b hb).1)]
  exact unescape_escape _ (bytes_lt s)

theorem QueryEscape_safe (s : String) : ∀ ch ∈ (QueryEscape s).data,
    ch ≠ '&' ∧ ch ≠ '=' ∧ ch ≠ '#' ∧ ch ≠ '?' ∧ ch ≠ ' ' := by
  intro ch hch
  unfold QueryEscape fromBytes at hch
  simp only [List.mem_map] at hch
  obtain ⟨b, hb, rfl⟩ := hch
  obtain ⟨h128, h1, h2, h3, h4, h5⟩ := escape_safe _ (bytes_lt s) b hb
  have hn := toNat_ofNat_ascii b h128
  refine ⟨?_, ?_, ?_, ?_, ?_⟩ <;> intro heq <;> rw [heq] at hn
  · exact h1 hn.symm
  · exact h2 hn.symm
  · exact h3 hn.symm
  · exact h4 hn.symm
  · exact h5 hn.symm

/-! ### The bytes of a string -/

theorem char_toNat_lt (c : Char) : c.toNat < 0x110000 := by
  rcases c.valid with h | h
  · have : c.val.toNat < 0xd800 := h
    show c.val.toNat < 0x110000
    omega
  · exact h.2

theorem char_eq_of_toNat_eq {c d : Char} (h : c.toNat = d.toNat) : c = d := by
  rw [← Char.ofNat_toNat c, ← Char.ofNat_toNat d, h]

theorem utf8EncodeChar_append_inj (c d : Char) (r r' : List Nat)
    (h : utf8EncodeChar c ++ r = utf8EncodeChar d ++ r') : c = d ∧ r = r' := by
  have hc := char_toNat_lt c
  have hd := char_toNat_lt d
  unfold utf8EncodeChar at h
  simp only at h
  split_ifs at h <;>
    simp only [List.cons_append, List.nil_append, List.cons.injEq] at h <;>
    first
    | (exfalso; omega)
    | exact ⟨char_eq_of_toNat_eq (by omega), by simp [h]⟩

theorem utf8EncodeChar_ne_nil (c : Char) : utf8EncodeChar c ≠ [] := by
  unfold utf8EncodeChar
  simp only
  split_ifs <;> simp

theorem flatMap_utf8EncodeChar_injective (l m : List Char)
    (h : l.flatMap utf8EncodeChar = m.flatMap utf8EncodeChar) : l = m := by
  induction l generalizing m with
  | nil =>
    cases m with
    | nil => rfl
    | cons d m =>
      exfalso
      simp only [List.flatMap_nil, List.flatMap_cons] at h
      exact utf8EncodeChar_ne_nil d (List.append_eq_nil.mp h.symm).1
  | cons c l ih =>
    cases m with
    | nil =>
      exfalso
      simp only [List.flatMap_nil, List.flatMap_cons] at h
      exact utf8EncodeChar_ne_nil c (List.append_eq_nil.mp h).1
    | cons d m =>
      simp only [List.flatMap_cons] at h
      obtain ⟨hcd, hr⟩ := utf8EncodeChar_append_inj c d _ _ h
      rw [hcd, ih m hr]

theorem bytes_injective (s t : String) (h : bytes s = bytes t) : s = t := by
  obtain ⟨l⟩ := s
  obtain ⟨m⟩ := t
  congr 1
  exact flatMap_utf8EncodeChar_injective l m h

theorem u8_toNat_and (a b : UInt8) : (a &&& b).toNat = a.toNat &&& b.toNat := by
  show (a.toBitVec &&& b.toBitVec).toNat = _
  simp [UInt8.toNat]

theorem u8_toNat_or (a b : UInt8) : (a ||| b).toNat = a.toNat ||| b.toNat := by
  show (a.toBitVec ||| b.toBitVec).toNat = _
  simp [UInt8.toNat]

theorem u32_toUInt8_toNat (v : UInt32) : v.toUInt8.toNat = v.toNat % 256 := by
  rfl

theorem u32_shr6 (v : UInt32) : (v >>> 6).toNat = v.toNat / 64 := by
  show (v.toBitVec >>> ((6 : UInt32).mod 32).toBitVec).toNat = _
  have : ((6 : UInt32).mod 32).toBitVec = BitVec.ofNat 32 6 := by decide
  rw [this]
  simp [UInt32.toNat, Nat.shiftRight_eq_div_pow]

theorem u32_shr12 (v : UInt32) : (v >>> 12).toNat = v.toNat / 4096 := by
  show (v.toBitVec >>> ((12 : UInt32).mod 32).toBitVec).toNat = _
  have : ((12 : UInt32).mod 32).toBitVec = BitVec.ofNat 32 12 := by decide
  rw [this]
  simp [UInt32.toNat, Nat.shiftRight_eq_div_pow]

theorem u32_shr18 (v : UInt32) : (v >>> 18).toNat = v.toNat / 262144 := by
  show (v.toBitVec >>> ((18 : UInt32).mod 32).toBitVec).toNat = _
  have : ((18 : UInt32).mod 32).toBitVec = BitVec.ofNat 32 18 := by decide
  rw [this]
  simp [UInt32.toNat, Nat.shiftRight_eq_div_pow]

theorem and63 (x : Nat) : x % 256 &&& 63 = x % 64 := by
  have := Nat.and_pow_two_sub_one_eq_mod (x % 256) 6
  simp only [Nat.reducePow, Nat.add_one_sub_one, Nat.reduceSub] at this
  rw [this]
  omega

set_option maxRecDepth 100000 in
theorem or128 : ∀ y : Nat, y < 64 → y ||| 128 = 128 + y := by decide

set_option maxRecDepth 100000 in
theorem lead2 : ∀ x : Nat, x < 32 → (x % 256 &&& 31) ||| 192 = 192 + x := by decide

set_option maxRecDepth 100000 in
theorem lead3 : ∀ x : Nat, x < 16 → (x % 256 &&& 15) ||| 224 = 224 + x := by decide

set_option maxRecDepth 100000 in
theorem lead4 : ∀ x : Nat, x < 8 → (x % 256 &&& 7) ||| 240 = 240 + x := by decide

theorem contNat (x : Nat) : x % 256 &&& UInt8.toNat 63 ||| UInt8.toNat 128 = 128 + x % 64 := by
  show (x % 256 &&& 63) ||| 128 = _
  rw [and63, or128 _ (Nat.mod_lt _ (by norm_num))]

theorem lead2Nat (x : Nat) (h : x < 32) :
    x % 256 &&& UInt8.toNat 31 ||| UInt8.toNat 192 = 192 + x := lead2 x h

theorem lead3Nat (x : Nat) (h : x < 16) :
    x % 256 &&& UInt8.toNat 15 ||| UInt8.toNat 224 = 224 + x := lead3 x h

theorem lead4Nat (x : Nat) (h : x < 8) :
    x % 256 &&& UInt8.toNat 7 ||| UInt8.toNat 240 = 240 + x := lead4 x h

theorem u32_le_iff (v : UInt32) (n : Nat) (hn : n < 2 ^ 32) :
    v ≤ UInt32.ofNat n ↔ v.toNat ≤ n := by
  show v.toNat ≤ (UInt32.ofNat n).toNat ↔ _
  rw [UInt32.toNat_ofNat_of_lt hn]

theorem utf8EncodeChar_eq (c : Char) :
    utf8EncodeChar c = (String.utf8EncodeChar c).map UInt8.toNat := by
  have hc := char_toNat_lt c
  have hv : c.toNat = c.val.toNat := rfl
  unfold utf8EncodeChar String.utf8EncodeChar
  simp only
  have h1 : (c.val ≤ 0x7f) ↔ c.toNat ≤ 0x7f := u32_le_iff c.val 0x7f (by norm_num)
  have h2 : (c.val ≤ 0x7ff) ↔ c.toNat ≤ 0x7ff := u32_le_iff c.val 0x7ff (by norm_num)
  have h3 : (c.val ≤ 0xffff) ↔ c.toNat ≤ 0xffff := u32_le_iff c.val 0xffff (by norm_num)
  by_cases a1 : c.toNat ≤ 0x7f
  · rw [if_pos a1, if_pos (h1.mpr a1)]
    simp only [List.map_cons, List.map_nil, u32_toUInt8_toNat, ← hv]
    congr 1
    omega
  · rw [if_neg a1, if_neg (fun h => a1 (h1.mp h))]
    by_cases a2 : c.toNat ≤ 0x7ff
    · rw [if_pos a2, if_pos (h2.mpr a2)]
      simp only [List.map_cons, List.map_nil, u8_toNat_or, u8_toNat_and,
        u32_toUInt8_toNat, u32_shr6, ← hv, contNat]
      rw [lead2Nat _ (by omega)]
    · rw [if_neg a2, if_neg (fun h => a2 (h2.mp h))]
      by_cases a3 : c.toNat ≤ 0xffff
      · rw [if_pos a3, if_pos (h3.mpr a3)]
        simp only [List.map_cons, List.map_nil, u8_toNat_or, u8_toNat_and,
          u32_toUInt8_toNat, u32_shr6, u32_shr12, ← hv, contNat]
        rw [lead3Nat _ (by omega)]
      · rw [if_neg a3, if_neg (fun h => a3 (h3.mp h))]
        simp only [List.map_cons, List.map_nil, u8_toNat_or, u8_toNat_and,
          u32_toUInt8_toNat, u32_shr6, u32_shr12, u32_shr18, ← hv, contNat]
        rw [lead4Nat _ (by omega)]

theorem bytes_eq_toUTF8 (s : String) : bytes s = s.toUTF8.data.toList.map UInt8.toNat := by
  unfold bytes String.toUTF8
  simp only [List.map_flatMap]
  congr 1
  funext c
  exact utf8EncodeChar_eq c

set_option maxRecDepth 100000 in
theorem escapeByte_unreserved : ∀ c : Nat, c < 256 → ∀ b ∈ escapeByte c,
    (Char.ofNat b).isAlphanum = true ∨ Char.ofNat b ∈ ['-', '_', '.', '~', '%', '+'] := by
  decide

theorem QueryEscape_unreserved (s : String) : ∀ ch ∈ (QueryEscape s).data,
    ch.isAlphanum = true ∨ ch ∈ ['-', '_', '.', '~', '%', '+'] := by
  intro ch hch
  unfold QueryEscape fromBytes escape at hch
  simp only [List.mem_map, List.mem_flatMap] at hch
  obtain ⟨b, ⟨c, hc, hb⟩, rfl⟩ := hch
  exact escapeByte_unreserved c (bytes_lt s c hc) b hb

theorem QueryEscape_examples :
    QueryEscape "Belo Horizonte" = "Belo+Horizonte" ∧
    QueryEscape "São Paulo" = "S%C3%A3o+Paulo" ∧
    QueryEscape "Kraków" = "Krak%C3%B3w" ∧
    QueryEscape "a&aqi=yes#?" = "a%26aqi%3Dyes%23%3F" := by
  decide

/-- C9: the URL `getWeatherData` requests is the endpoint with `key=` the
configured key, `q=` the query-escaped city and `aqi=no`; the escaped city
contains none of `&`, `=`, `#`, `?` and space (it is made of ASCII letters,
digits and `-`, `_`, `.`, `~`, `%`, `+` only), and query-unescaping it gives
back exactly the city: the bytes of the city, which are its UTF-8 encoding and
are the bytes of no other string. -/
theorem getWeatherData_url (w : World) (city : String) :
    (getWeatherData w city).2 =
      .call "getWeatherData" city ::
        (match w.roundTrip ("https://api.weatherapi.com/v1/current.json?key=" ++
            w.conf.weatherApiKey ++ "&q=" ++ QueryEscape city ++ "&aqi=no") with
          | .createFailed _ => []
          | _ => [.outbound .background ("https://api.weatherapi.com/v1/current.json?key=" ++
              w.conf.weatherApiKey ++ "&q=" ++ QueryEscape city ++ "&aqi=no")]) ∧
    (∀ ch ∈ (QueryEscape city).data, ch ≠ '&' ∧ ch ≠ '=' ∧ ch ≠ '#' ∧ ch ≠ '?' ∧ ch ≠ ' ') ∧
    (∀ ch ∈ (QueryEscape city).data,
      ch.isAlphanum = true ∨ ch ∈ ['-', '_', '.', '~', '%', '+']) ∧
    QueryUnescape (QueryEscape city) = .ok (bytes city) ∧
    (∀ s : String, QueryUnescape (QueryEscape city) = .ok (bytes s) ↔ s = city) ∧
    bytes city = city.toUTF8.data.toList.map UInt8.toNat := by
  refine ⟨?_, QueryEscape_safe city, QueryEscape_unreserved city,
    QueryUnescape_QueryEscape city, ?_, bytes_eq_toUTF8 city⟩
  · rw [getWeatherData_events, request_events]
  · intro s
    rw [QueryUnescape_QueryEscape]
    constructor
    · intro h
      simp only [Except.ok.injEq] at h
      exact (bytes_injective city s h).symm
    · rintro rfl
      rfl

theorem getWeatherData_url_witness :
    QueryEscape "Kraków" = "Krak%C3%B3w" ∧
    QueryUnescape "Krak%C3%B3w" = .ok (bytes "Kraków") ∧
    ¬ QueryUnescape "Krak%C3%B3w" = .ok (bytes "Krakw") := by
  have h := getWeatherData_url okWorld "Kraków"
  have hq : QueryEscape "Kraków" = "Krak%C3%B3w" := by decide
  rw [hq] at h
  exact ⟨hq, h.2.2.2.1, fun hn => absurd ((h.2.2.2.2.1 "Krakw").mp hn) (by decide)⟩

/-! ## The handler: success -/

theorem render_status (r : Request) (status : Nat) (v : WeatherInfo) :
    (render r status v).status = status := by
  unfold render
  cases GetAcceptedContentType r <;> rfl

theorem render_body (r : Request) (status : Nat) (v : WeatherInfo) :
    (render r status v).body =
      if GetAcceptedContentType r = .xml then .xml "WeatherInfo" v.xml else .json v.json := by
  unfold render
  cases h : GetAcceptedContentType r <;> simp

theorem GetAcceptedContentType_examples :
    GetAcceptedContentType ⟨.inbound 0, "30280160", ""⟩ = .plainText ∧
    GetAcceptedContentType ⟨.inbound 0, "30280160", "*/*"⟩ = .plainText ∧
    GetAcceptedContentType ⟨.inbound 0, "30280160", "application/json"⟩ = .json ∧
    GetAcceptedContentType ⟨.inbound 0, "30280160", "application/xml"⟩ = .xml ∧
    GetAcceptedContentType ⟨.inbound 0, "30280160", " text/xml;q=0.9, */*"⟩ = .xml ∧
    GetAcceptedContentType ⟨.inbound 0, "30280160", "text/html, application/xml"⟩ = .html := by
  decide

theorem GetAcceptedContentType_of_no_accept (r : Request) (h : r.accept = "") :
    GetAcceptedContentType r = .plainText := by
  unfold GetAcceptedContentType
  rw [h]
  decide

/-- C8, as the code has it: for a well-formed postal code whose lookup yields a
location `L` and for which the weather response for `L.City` decodes with
Celsius `c` and Fahrenheit `f`, `weatherHandler` calls the weather resolver
with `L.City` and answers 200 with the reading `c + 273` (the `float64` sum),
`c`, `f`, encoded as the request's `Accept` header asks: the XML element
`WeatherInfo` with children `Kelvin`, `Celsius`, `Fahrenheit` when its first
media type is an XML one, and otherwise, so also without the header, the JSON
object of exactly the keys `temp_K`, `temp_C`, `temp_F`; and it answers 200 in
this case only. -/
theorem weatherHandler_success (w : World) (r : Request) :
    (∀ (L : cepInfo) (st : Nat) (body : String) (c f : F64),
      isValidCep r.cep = true →
      (getLocationData w r.cep).1 = .ok (some L) →
      w.roundTrip ("https://api.weatherapi.com/v1/current.json?key=" ++
        w.conf.weatherApiKey ++ "&q=" ++ QueryEscape L.City ++ "&aqi=no") = .response st body →
      w.unmarshalWeather body = .ok ⟨c, f⟩ →
      (weatherHandler w r).1.status = 200 ∧
      (weatherHandler w r).1.body =
        (if GetAcceptedContentType r = .xml then
          .xml "WeatherInfo"
            [("Kelvin", c.add (.finite 273)), ("Celsius", c), ("Fahrenheit", f)]
        else .json [("temp_K", c.add (.finite 273)), ("temp_C", c), ("temp_F", f)]) ∧
      (r.accept = "" →
        (weatherHandler w r).1 =
          ⟨200, .json [("temp_K", c.add (.finite 273)), ("temp_C", c), ("temp_F", f)]⟩) ∧
      (weatherHandler w r).2 =
        (getLocationData w r.cep).2 ++
          [.call "getWeatherData" L.City,
           .outbound .background ("https://api.weatherapi.com/v1/current.json?key=" ++
              w.conf.weatherApiKey ++ "&q=" ++ QueryEscape L.City ++ "&aqi=no")]) ∧
    ((weatherHandler w r).1.status = 200 →
      isValidCep r.cep = true ∧
      ∃ (L : cepInfo) (st : Nat) (body : String) (c f : F64),
        (getLocationData w r.cep).1 = .ok (some L) ∧
        w.roundTrip ("https://api.weatherapi.com/v1/current.json?key=" ++
          w.conf.weatherApiKey ++ "&q=" ++ QueryEscape L.City ++ "&aqi=no") = .response st body ∧
        w.unmarshalWeather body = .ok ⟨c, f⟩) := by
  constructor
  · intro L st body c f hv hl hr hd
    have hw : (getWeatherData w L.City).1 =
        .ok { Celsius := c, Fahrenheit := f, Kelvin := c.add (.finite 273) } := by
      rw [getWeatherData_of_response w L.City st body hr, hd]
    rw [weatherHandler_of_weather_ok w r hv L _ hl hw]
    refine ⟨render_status _ _ _, render_body _ _ _, ?_, ?_⟩
    · intro ha
      have hct := GetAcceptedContentType_of_no_accept r ha
      simp only [render, hct]
      rfl
    · simp only [getWeatherData_events, request_events, hr]
  · intro h200
    cases hv : isValidCep r.cep with
    | false =>
      rw [weatherHandler_of_invalid w r hv] at h200
      simp [httpError, StatusUnprocessableEntity] at h200
    | true =>
      refine ⟨rfl, ?_⟩
      cases hl : (getLocationData w r.cep).1 with
      | error err =>
        rw [weatherHandler_of_location_error w r hv err hl] at h200
        simp [httpError] at h200
      | ok o =>
        cases o with
        | none =>
          rw [weatherHandler_of_location_none w r hv hl] at h200
          simp [httpError, StatusNotFound] at h200
        | some L =>
          cases hw : (getWeatherData w L.City).1 with
          | error err =>
            rw [weatherHandler_of_weather_error w r hv L err hl hw] at h200
            simp [httpError] at h200
          | ok wi =>
            obtain ⟨st, body, c, f, hr, hd, _⟩ := getWeatherData_ok w L.City wi hw
            exact ⟨L, st, body, c, f, rfl, hr, hd⟩

theorem weatherHandler_success_witness :
    isValidCep "30280160" = true ∧
    (weatherHandler okWorld ⟨.inbound 0, "30280160", ""⟩).1 =
      ⟨200, .json [("temp_K", (F64.finite 25).add (.finite 273)), ("temp_C", .finite 25),
        ("temp_F", .finite 77)]⟩ :=
  ⟨by decide,
    ((weatherHandler_success okWorld ⟨.inbound 0, "30280160", ""⟩).1
      { Cep := "30280-160", State := "MG", City := "Belo Horizonte",
        Neighborhood := "Santa Efigênia", Street := "Rua Niquelina" }
      200 sampleWeatherBody (.finite 25) (.finite 77) (by decide) (by rfl) (by rfl)
      (by rfl)).2.2.1 rfl⟩

/-- C8 as stated fails: a request for an assigned postal code that carries
`Accept: application/xml` is answered 200 with the XML element `WeatherInfo`,
whose children are named `Kelvin`, `Celsius`, `Fahrenheit`, not with a JSON
object of the keys `temp_K`, `temp_C`, `temp_F`. -/
theorem accept_xml_counterexample :
    isValidCep "30280160" = true ∧
    (getLocationData okWorld "30280160").1 =
      .ok (some { Cep := "30280-160", State := "MG", City := "Belo Horizonte",
                  Neighborhood := "Santa Efigênia", Street := "Rua Niquelina" }) ∧
    (getWeatherData okWorld "Belo Horizonte").1 =
      .ok { Celsius := .finite 25, Fahrenheit := .finite 77,
            Kelvin := (F64.finite 25).add (.finite 273) } ∧
    (weatherHandler okWorld ⟨.inbound 0, "30280160", "application/xml"⟩).1 =
      ⟨200, .xml "WeatherInfo"
        [("Kelvin", (F64.finite 25).add (.finite 273)), ("Celsius", .finite 25),
         ("Fahrenheit", .finite 77)]⟩ ∧
    ∀ fields, (weatherHandler okWorld ⟨.inbound 0, "30280160", "application/xml"⟩).1.body ≠
      .json fields := by
  have hct : GetAcceptedContentType ⟨.inbound 0, "30280160", "application/xml"⟩ = .xml := by
    decide
  have hresp : (weatherHandler okWorld ⟨.inbound 0, "30280160", "application/xml"⟩).1 =
      ⟨200, .xml "WeatherInfo"
        [("Kelvin", (F64.finite 25).add (.finite 273)), ("Celsius", .finite 25),
         ("Fahrenheit", .finite 77)]⟩ := by
    rw [weatherHandler_of_weather_ok okWorld ⟨.inbound 0, "30280160", "application/xml"⟩
      (by decide)
      { Cep := "30280-160", State := "MG", City := "Belo Horizonte",
        Neighborhood := "Santa Efigênia", Street := "Rua Niquelina" }
      { Celsius := .finite 25, Fahrenheit := .finite 77,
        Kelvin := (F64.finite 25).add (.finite 273) } (by rfl) (by rfl)]
    simp only [render, hct]
    rfl
  refine ⟨by decide, by rfl, by rfl, hresp, ?_⟩
  intro fields
  rw [hresp]
  simp

/-! ## Status codes of outbound responses -/

theorem request_mapStatus {α : Type} (w : World) (f : String → Nat → Nat)
    (unmarshal : String → Except String α) (ctx : Ctx) (url : String) :
    request (w.mapStatus f) unmarshal ctx url = request w unmarshal ctx url := by
  unfold request World.mapStatus
  dsimp only
  cases h : w.roundTrip url <;> rfl

theorem getLocationData_mapStatus (w : World) (f : String → Nat → Nat) (cep : String) :
    getLocationData (w.mapStatus f) cep = getLocationData w cep := by
  unfold getLocationData
  rw [request_mapStatus]
  rfl

theorem getWeatherData_mapStatus (w : World) (f : String → Nat → Nat) (location : String) :
    getWeatherData (w.mapStatus f) location = getWeatherData w location := by
  unfold getWeatherData
  dsimp only
  rw [request_mapStatus]
  rfl

theorem weatherHandler_mapStatus (w : World) (f : String → Nat → Nat) (r : Request) :
    weatherHandler (w.mapStatus f) r = weatherHandler w r := by
  unfold weatherHandler
  simp only [getLocationData_mapStatus, getWeatherData_mapStatus]

theorem request_error_iff {α : Type} (w : World) (unmarshal : String → Except String α)
    (ctx : Ctx) (url : String) :
    (∃ e, (request w unmarshal ctx url).1 = .error e) ↔
      ¬ ∃ st body d, w.roundTrip url = .response st body ∧ unmarshal body = .ok d := by
  cases hr : w.roundTrip url with
  | createFailed err => simp [request, hr]
  | doFailed err => simp [request, hr]
  | readFailed st err => simp [request, hr]
  | response st body =>
    rw [request_of_response w unmarshal ctx url st body hr]
    cases hd : unmarshal body with
    | error err =>
      constructor
      · rintro - ⟨st', body', d, hr', hd'⟩
        cases hr'
        rw [hd] at hd'
        cases hd'
      · intro _
        exact ⟨_, rfl⟩
    | ok d =>
      constructor
      · rintro ⟨e, he⟩
        cases he
      · intro h
        exact absurd ⟨st, body, d, rfl, hd⟩ h

theorem getLocationData_error_iff (w : World) (cep : String) :
    (∃ e, (getLocationData w cep).1 = .error e) ↔
      ¬ ∃ st body d, w.roundTrip ("http://viacep.com.br/ws/" ++ cep ++ "/json/") =
          .response st body ∧ w.unmarshalLocation body = .ok d := by
  rw [← request_error_iff w w.unmarshalLocation Ctx.background]
  unfold getLocationData
  rcases request w w.unmarshalLocation Ctx.background
    ("http://viacep.com.br/ws/" ++ cep ++ "/json/") with ⟨res, ev⟩
  cases res with
  | error err => simp
  | ok data => cases hE : data.Err <;> simp [hE]

theorem getWeatherData_error_iff (w : World) (location : String) :
    (∃ e, (getWeatherData w location).1 = .error e) ↔
      ¬ ∃ st body d, w.roundTrip ("https://api.weatherapi.com/v1/current.json?key=" ++
          w.conf.weatherApiKey ++ "&q=" ++ QueryEscape location ++ "&aqi=no") =
          .response st body ∧ w.unmarshalWeather body = .ok d := by
  rw [← request_error_iff w w.unmarshalWeather Ctx.background]
  unfold getWeatherData
  dsimp only
  rcases request w w.unmarshalWeather Ctx.background
    ("https://api.weatherapi.com/v1/current.json?key=" ++ w.conf.weatherApiKey ++
      "&q=" ++ QueryEscape location ++ "&aqi=no") with ⟨res, ev⟩
  cases res <;> simp

theorem weatherHandler_status_500_iff (w : World) (r : Request)
    (hv : isValidCep r.cep = true) :
    (weatherHandler w r).1.status = 500 ↔
      ((∃ e, (getLocationData w r.cep).1 = .error e) ∨
        ∃ L, (getLocationData w r.cep).1 = .ok (some L) ∧
          ∃ e, (getWeatherData w L.City).1 = .error e) := by
  cases hl : (getLocationData w r.cep).1 with
  | error err =>
    rw [weatherHandler_of_location_error w r hv err hl]
    simp [httpError]
  | ok o =>
    cases o with
    | none =>
      rw [weatherHandler_of_location_none w r hv hl]
      simp [httpError, StatusNotFound]
    | some L =>
      cases hw : (getWeatherData w L.City).1 with
      | error err =>
        rw [weatherHandler_of_weather_error w r hv L err hl hw]
        simp [httpError, hw]
      | ok wi =>
        rw [weatherHandler_of_weather_ok w r hv L wi hl hw]
        simp [render_status, hw]

/-- C4, as the code has it: the status code of an outbound response is never
looked at.  Replacing the status codes of the responses changes nothing in
what the resolvers return and the handler answers.  A resolver fails with an
error exactly when the transport fails (the request cannot be created or sent,
or the body cannot be read) or the body of the response, of whatever status,
does not decode; for a well-formed postal code the handler answers 500
exactly when a resolver it calls fails.  So a response of any status whose
body decodes is handled as a 2xx response with that body. -/
theorem status_code_not_inspected (w : World) (r : Request) :
    (∀ f : String → Nat → Nat,
      getLocationData (w.mapStatus f) r.cep = getLocationData w r.cep ∧
      (∀ city, getWeatherData (w.mapStatus f) city = getWeatherData w city) ∧
      weatherHandler (w.mapStatus f) r = weatherHandler w r) ∧
    ((∃ e, (getLocationData w r.cep).1 = .error e) ↔
      ¬ ∃ st body d, w.roundTrip ("http://viacep.com.br/ws/" ++ r.cep ++ "/json/") =
          .response st body ∧ w.unmarshalLocation body = .ok d) ∧
    (∀ city, (∃ e, (getWeatherData w city).1 = .error e) ↔
      ¬ ∃ st body d, w.roundTrip ("https://api.weatherapi.com/v1/current.json?key=" ++
          w.conf.weatherApiKey ++ "&q=" ++ QueryEscape city ++ "&aqi=no") =
          .response st body ∧ w.unmarshalWeather body = .ok d) ∧
    (isValidCep r.cep = true →
      ((weatherHandler w r).1.status = 500 ↔
        ((∃ e, (getLocationData w r.cep).1 = .error e) ∨
          ∃ L, (getLocationData w r.cep).1 = .ok (some L) ∧
            ∃ e, (getWeatherData w L.City).1 = .error e))) ∧
    (∀ (st : Nat) (body err : String), isValidCep r.cep = true →
      (w.roundTrip ("http://viacep.com.br/ws/" ++ r.cep ++ "/json/") = .createFailed err ∨
        w.roundTrip ("http://viacep.com.br/ws/" ++ r.cep ++ "/json/") = .doFailed err ∨
        w.roundTrip ("http://viacep.com.br/ws/" ++ r.cep ++ "/json/") = .readFailed st err ∨
        (w.roundTrip ("http://viacep.com.br/ws/" ++ r.cep ++ "/json/") = .response st body ∧
          w.unmarshalLocation body = .error err)) →
      (∃ e, (getLocationData w r.cep).1 = .error e) ∧ (weatherHandler w r).1.status = 500) ∧
    (∀ (L : cepInfo) (st : Nat) (body err : String), isValidCep r.cep = true →
      (getLocationData w r.cep).1 = .ok (some L) →
      (w.roundTrip ("https://api.weatherapi.com/v1/current.json?key=" ++
          w.conf.weatherApiKey ++ "&q=" ++ QueryEscape L.City ++ "&aqi=no") = .createFailed err ∨
        w.roundTrip ("https://api.weatherapi.com/v1/current.json?key=" ++
          w.conf.weatherApiKey ++ "&q=" ++ QueryEscape L.City ++ "&aqi=no") = .doFailed err ∨
        w.roundTrip ("https://api.weatherapi.com/v1/current.json?key=" ++
          w.conf.weatherApiKey ++ "&q=" ++ QueryEscape L.City ++ "&aqi=no") =
            .readFailed st err ∨
        (w.roundTrip ("https://api.weatherapi.com/v1/current.json?key=" ++
          w.conf.weatherApiKey ++ "&q=" ++ QueryEscape L.City ++ "&aqi=no") =
            .response st body ∧
          w.unmarshalWeather body = .error err)) →
      (∃ e, (getWeatherData w L.City).1 = .error e) ∧ (weatherHandler w r).1.status = 500) := by
  refine ⟨fun f => ⟨getLocationData_mapStatus w f r.cep,
    fun city => getWeatherData_mapStatus w f city, weatherHandler_mapStatus w f r⟩,
    getLocationData_error_iff w r.cep, fun city => getWeatherData_error_iff w city,
    fun hv => weatherHandler_status_500_iff w r hv, ?_, ?_⟩
  · intro st body err hv h
    have hl : ∃ e, (getLocationData w r.cep).1 = .error e := by
      rw [getLocationData_error_iff]
      rintro ⟨st', body', d, hr, hd⟩
      rcases h with h | h | h | ⟨h, hd'⟩
      · rw [h] at hr; cases hr
      · rw [h] at hr; cases hr
      · rw [h] at hr; cases hr
      · rw [h] at hr
        cases hr
        rw [hd'] at hd
        cases hd
    exact ⟨hl, (weatherHandler_status_500_iff w r hv).mpr (Or.inl hl)⟩
  · intro L st body err hv hloc h
    have hw : ∃ e, (getWeatherData w L.City).1 = .error e := by
      rw [getWeatherData_error_iff]
      rintro ⟨st', body', d, hr, hd⟩
      rcases h with h | h | h | ⟨h, hd'⟩
      · rw [h] at hr; cases hr
      · rw [h] at hr; cases hr
      · rw [h] at hr; cases hr
      · rw [h] at hr
        cases hr
        rw [hd'] at hd
        cases hd
    exact ⟨hw, (weatherHandler_status_500_iff w r hv).mpr (Or.inr ⟨L, hloc, hw⟩)⟩

theorem status_code_not_inspected_witness :
    isValidCep "30280160" = true ∧
    weatherHandler (okWorld.mapStatus fun _ _ => 503) ⟨.inbound 0, "30280160", ""⟩ =
      weatherHandler okWorld ⟨.inbound 0, "30280160", ""⟩ ∧
    (weatherHandler (sampleWorld 503 "Service Unavailable" none)
      ⟨.inbound 0, "30280160", ""⟩).1.status = 500 ∧
    isValidCep "12345678" = true ∧
    okWorld.roundTrip "http://viacep.com.br/ws/12345678/json/" = .doFailed "no such host" ∧
    (weatherHandler okWorld ⟨.inbound 0, "12345678", ""⟩).1.status = 500 :=
  ⟨by decide,
    ((status_code_not_inspected okWorld ⟨.inbound 0, "30280160", ""⟩).1 fun _ _ => 503).2.2,
    ((status_code_not_inspected (sampleWorld 503 "Service Unavailable" none)
        ⟨.inbound 0, "30280160", ""⟩).2.2.2.2.2
      { Cep := "30280-160", State := "MG", City := "Belo Horizonte",
        Neighborhood := "Santa Efigênia", Street := "Rua Niquelina" }
      503 "Service Unavailable" "invalid character S looking for beginning of value"
      (by decide) (by rfl) (Or.inr (Or.inr (Or.inr ⟨by rfl, by rfl⟩)))).2,
    by decide, by rfl,
    ((status_code_not_inspected okWorld ⟨.inbound 0, "12345678", ""⟩).2.2.2.2.1
      0 "" "no such host" (by decide) (Or.inr (Or.inl (by rfl)))).2⟩

/-- C4 as stated fails: the weather service answers the query for Belo
Horizonte with status 400 and an error object; the body decodes (to the
zero-valued record), so `getWeatherData` returns a reading and the handler
answers 200. -/
theorem non2xx_counterexample :
    unknownPlaceWorld.roundTrip
        "https://api.weatherapi.com/v1/current.json?key=KEY&q=Belo+Horizonte&aqi=no" =
      .response 400 unknownPlaceBody ∧
    (getWeatherData unknownPlaceWorld "Belo Horizonte").1 =
      .ok { Celsius := .finite 0, Fahrenheit := .finite 0,
            Kelvin := (F64.finite 0).add (.finite 273) } ∧
    (weatherHandler unknownPlaceWorld ⟨.inbound 0, "30280160", ""⟩).1.status = 200 := by
  have hw : (getWeatherData unknownPlaceWorld "Belo Horizonte").1 =
      .ok { Celsius := .finite 0, Fahrenheit := .finite 0,
            Kelvin := (F64.finite 0).add (.finite 273) } := by rfl
  refine ⟨by rfl, hw, ?_⟩
  rw [weatherHandler_of_weather_ok unknownPlaceWorld ⟨.inbound 0, "30280160", ""⟩ (by decide)
    { Cep := "30280-160", State := "MG", City := "Belo Horizonte",
      Neighborhood := "Santa Efigênia", Street := "Rua Niquelina" } _ (by rfl) hw]
  rfl

/-! ## The context of the outbound calls -/

theorem weatherHandler_outbound_ctx (w : World) (r : Request) (ctx : Ctx) (url : String)
    (h : Event.outbound ctx url ∈ (weatherHandler w r).2) : ctx = .background := by
  have hreq : ∀ {α : Type} (um : String → Except String α) (u : String),
      Event.outbound ctx url ∈ (request w um Ctx.background u).2 → ctx = .background := by
    intro α um u hm
    rw [request_events] at hm
    cases hrt : w.roundTrip u <;> rw [hrt] at hm <;> simp at hm <;> exact hm.1
  have hloc : Event.outbound ctx url ∈ (getLocationData w r.cep).2 → ctx = .background := by
    intro hm
    rw [getLocationData_events] at hm
    rcases List.mem_cons.mp hm with hm | hm
    · cases hm
    · exact hreq _ _ hm
  have hwea : ∀ city, Event.outbound ctx url ∈ (getWeatherData w city).2 →
      ctx = .background := by
    intro city hm
    rw [getWeatherData_events] at hm
    rcases List.mem_cons.mp hm with hm | hm
    · cases hm
    · exact hreq _ _ hm
  cases hv : isValidCep r.cep with
  | false =>
    rw [weatherHandler_of_invalid w r hv] at h
    simp at h
  | true =>
    cases hl : (getLocationData w r.cep).1 with
    | error err =>
      rw [weatherHandler_of_location_error w r hv err hl] at h
      rcases List.mem_append.mp h with h | h
      · exact hloc h
      · simp at h
    | ok o =>
      cases o with
      | none =>
        rw [weatherHandler_of_location_none w r hv hl] at h
        exact hloc h
      | some L =>
        cases hw : (getWeatherData w L.City).1 with
        | error err =>
          rw [weatherHandler_of_weather_error w r hv L err hl hw] at h
          simp only [List.mem_append, List.mem_singleton] at h
          rcases h with (h | h) | h
          · exact hloc h
          · exact hwea _ h
          · cases h
        | ok wi =>
          rw [weatherHandler_of_weather_ok w r hv L wi hl hw] at h
          rcases List.mem_append.mp h with h | h
          · exact hloc h
          · exact hwea _ h

/-- C10 fails on the code: a request for an assigned postal code, served under
the 60 second timeout, sends both outbound requests under the background
context, which is not derived from the context the handler runs in. -/
theorem serveWeather_outbound_background :
    (serveWeather okWorld ⟨.inbound 0, "30280160", ""⟩).2 =
      [.call "getLocationData" "30280160",
       .outbound .background "http://viacep.com.br/ws/30280160/json/",
       .call "getWeatherData" "Belo Horizonte",
       .outbound .background
         "https://api.weatherapi.com/v1/current.json?key=KEY&q=Belo+Horizonte&aqi=no"] ∧
    Ctx.derivedFrom (.withTimeout (.inbound 0) 60) .background = false ∧
    Ctx.derivedFrom (.inbound 0) .background = false ∧
    ∀ (w : World) (r : Request) (ctx : Ctx) (url : String),
      Event.outbound ctx url ∈ (serveWeather w r).2 →
        ctx = .background ∧ Ctx.derivedFrom (.withTimeout r.ctx 60) ctx = false := by
  refine ⟨by rfl, by rfl, by rfl, ?_⟩
  intro w r ctx url h
  have hc : ctx = .background := weatherHandler_outbound_ctx w _ ctx url h
  subst hc
  exact ⟨rfl, by simp [Ctx.derivedFrom]⟩

end CepWeather
